import Mathlib

/-!
Shallow embedding of the risk-scoring / decision pipeline of the ICS
multi-agent backend (`backend/agents.py`, `backend/risk_mapping.py`).

Probabilities, rates and scores are embedded as rationals; the numeric
reductions of numpy/pandas (`mean`, `max`, `std`) are modelled explicitly.
Python dictionaries that are looked up by string key are modelled as
association lists in insertion order, and dictionary `get` with a default
is modelled by `ICS.getD`.
-/

namespace ICS

/-- Lookup in an association list with a default, modelling Python
`dict.get(key, default)` (dictionary keys are unique, so first match is
the match). -/
def getD {κ ν : Type} [DecidableEq κ] : List (κ × ν) → κ → ν → ν
  | [], _, d => d
  | e :: rest, k, d => if e.1 = k then e.2 else getD rest k d

/-- Mean of a list of rationals, modelling `np.mean`.  numpy returns NaN on
an empty array; the pipeline only applies it to non-empty batches, and we
return 0 there. -/
def npMean (xs : List ℚ) : ℚ :=
  if xs.length = 0 then 0 else xs.sum / xs.length

/-- Maximum of a list of rationals, modelling `np.max` on the non-negative
batches the pipeline feeds it (0 stands in for the error numpy raises on an
empty array). -/
def npMax (xs : List ℚ) : ℚ := xs.foldl max 0

/-- Risk level enumeration from `agents.py` (`RiskLevel`). -/
inductive RiskLevel where
  | low
  | medium
  | high
  | critical
deriving DecidableEq, Repr

/-- The `.value` string of a `RiskLevel` member. -/
def RiskLevel.value : RiskLevel → String
  | .low => "low"
  | .medium => "medium"
  | .high => "high"
  | .critical => "critical"

namespace CyberRiskAssessmentAgent

/-- Threshold `self.prob_thresholds` entry for low. -/
def prob_thresholds_low : ℚ := 3/10

/-- Threshold `self.prob_thresholds` entry for medium. -/
def prob_thresholds_medium : ℚ := 6/10

/-- Threshold `self.prob_thresholds` entry for high. -/
def prob_thresholds_high : ℚ := 85/100

/-- Source `_calculate_cyber_risk_score`. -/
def calculate_cyber_risk_score (avg_prob anomaly_rate temporal_risk : ℚ) : ℚ :=
  min 1 (4/10 * avg_prob + 3/10 * anomaly_rate + 3/10 * temporal_risk)

/-- One step of the loop in `_analyze_temporal_pattern`: the pair carries
the running count of consecutive positive flags and the maximum so far. -/
def consecStep (p : ℕ × ℕ) (flag : Bool) : ℕ × ℕ :=
  if flag then (p.1 + 1, max p.2 (p.1 + 1)) else (0, p.2)

/-- The `max_consecutive` value computed by the loop in
`_analyze_temporal_pattern`. -/
def max_consecutive (flags : List Bool) : ℕ :=
  (flags.foldl consecStep (0, 0)).2

/-- Source `_analyze_temporal_pattern`. -/
def analyze_temporal_pattern (flags : List Bool) : ℚ :=
  if flags.length < 10 then 0
  else min 1 ((max_consecutive flags : ℚ) / 10)

/-- Source `_classify_risk_level` of the cyber agent. -/
def classify_risk_level (score : ℚ) : RiskLevel :=
  if score < prob_thresholds_low then .low
  else if score < prob_thresholds_medium then .medium
  else if score < prob_thresholds_high then .high
  else .critical

/-- Source `_identify_attack_pattern`.  The boolean mask indexing
`attack_probs[anomaly_flags]` is modelled by zipping and filtering. -/
def identify_attack_pattern (flags : List Bool) (probs : List ℚ) : String :=
  let anomaly_rate := npMean (flags.map (fun f => if f then 1 else 0))
  let avg_prob :=
    if flags.any id then npMean (((probs.zip flags).filter (fun p => p.2)).map (fun p => p.1))
    else 0
  if anomaly_rate > 8/10 then "Persistent Attack"
  else if anomaly_rate > 5/10 then "Intermittent Attack"
  else if avg_prob > 9/10 then "Targeted Attack"
  else if anomaly_rate > 1/10 then "Sporadic Anomalies"
  else "Normal Operation"

/-- Source `_generate_threat_assessment`. -/
def generate_threat_assessment (level : RiskLevel) (sig : String) : String :=
  match level with
  | .low => "Minimal cyber threat detected. " ++ sig ++ "."
  | .medium => "Moderate cyber risk. " ++ sig ++ ". Monitor closely."
  | .high => "High cyber threat level! " ++ sig ++ ". Immediate attention required."
  | .critical => "CRITICAL CYBER ATTACK! " ++ sig ++ ". Activate incident response!"

/-- Result dictionary of `CyberRiskAssessmentAgent.assess_risk`. -/
structure CyberAssessment where
  cyber_risk_score : ℚ
  risk_level : String
  avg_attack_probability : ℚ
  max_attack_probability : ℚ
  anomaly_count : ℕ
  anomaly_rate : ℚ
  temporal_risk : ℚ
  attack_signature : String
  threat_assessment : String
deriving DecidableEq, Repr

/-- Source `assess_risk`.  The inputs are the `attack_probability` and
`anomaly_detected` entries of the detection-result dictionary together with
the optional timestamp series. -/
def assess_risk (attack_probs : List ℚ) (anomaly_flags : List Bool)
    (timestamps : Option (List ℕ)) : CyberAssessment :=
  let avg_attack_prob := npMean attack_probs
  let max_attack_prob := npMax attack_probs
  let num_anomalies := anomaly_flags.count true
  let anomaly_rate := npMean (anomaly_flags.map (fun f => if f then 1 else 0))
  let temporal_risk_score :=
    match timestamps with
    | some ts => if 1 < ts.length then analyze_temporal_pattern anomaly_flags else 0
    | none => 0
  let score := calculate_cyber_risk_score avg_attack_prob anomaly_rate temporal_risk_score
  let level := classify_risk_level score
  let sig := identify_attack_pattern anomaly_flags attack_probs
  { cyber_risk_score := score
    risk_level := level.value
    avg_attack_probability := avg_attack_prob
    max_attack_probability := max_attack_prob
    anomaly_count := num_anomalies
    anomaly_rate := anomaly_rate
    temporal_risk := temporal_risk_score
    attack_signature := sig
    threat_assessment := generate_threat_assessment level sig }

end CyberRiskAssessmentAgent

/-! Specification-side notion of the longest consecutive run of positive
labels, used to check the loop of `_analyze_temporal_pattern`. -/

/-- Length of the leading block of `true` flags. -/
def leadingTrue : List Bool → ℕ
  | [] => 0
  | f :: fs => if f then leadingTrue fs + 1 else 0

/-- Longest consecutive run of `true` flags: the largest leading block over
all suffixes.  This is the specification-side definition; the theorems for
claim C4 relate it to the loop of `_analyze_temporal_pattern` and
characterize it through `List.IsInfix`. -/
def longestRun : List Bool → ℕ
  | [] => 0
  | f :: fs => max (leadingTrue (f :: fs)) (longestRun fs)

/-- Fixed-point formatting of a non-negative rational with one decimal,
modelling the Python format `:.1f` used for the performance-degradation
string (Python rounds the underlying double half to even; the two agree
away from exact half-tenth ties, and no claim depends on a tie). -/
def formatPct (q : ℚ) : String :=
  let n := (⌊q * 10 + 1/2⌋).toNat
  toString (n / 10) ++ "." ++ toString (n % 10)

namespace OperationalRiskAssessmentAgent

/-- The likelihood-impact matrix `self.risk_matrix`. -/
def risk_matrix : List ((String × String) × ℚ) :=
  [(("low", "low"), 1/10), (("low", "medium"), 2/10), (("low", "high"), 4/10),
   (("medium", "low"), 3/10), (("medium", "medium"), 5/10), (("medium", "high"), 7/10),
   (("high", "low"), 5/10), (("high", "medium"), 7/10), (("high", "high"), 9/10)]

/-- Source `_assess_impact`. -/
def assess_impact (anomaly_rate : ℚ) (num_anomalies : ℕ) : String :=
  if anomaly_rate > 7/10 ∨ num_anomalies > 1000 then "high"
  else if anomaly_rate > 3/10 ∨ num_anomalies > 100 then "medium"
  else "low"

/-- The `likelihood_map.get(likelihood, "medium")` normalization inside
`_calculate_operational_risk`. -/
def likelihood_map (likelihood : String) : String :=
  getD [("low", "low"), ("medium", "medium"), ("high", "high"), ("critical", "high")]
    likelihood "medium"

/-- Source `_calculate_operational_risk`. -/
def calculate_operational_risk (likelihood impact : String) : ℚ :=
  getD risk_matrix (likelihood_map likelihood, impact) (5/10)

/-- Source `_assess_fault_severity`. -/
def assess_fault_severity (risk_score anomaly_rate : ℚ) : String :=
  let combined_score := (risk_score + anomaly_rate) / 2
  if combined_score > 8/10 then "Critical"
  else if combined_score > 6/10 then "High"
  else if combined_score > 3/10 then "Medium"
  else "Low"

/-- Source `_identify_affected_systems`. -/
def identify_affected_systems (num_anomalies : ℕ) (anomaly_rate : ℚ) : List String :=
  let affected :=
    (if anomaly_rate > 5/10 then ["Primary Treatment", "Distribution System"] else [])
    ++ (if num_anomalies > 500 then ["Control System"] else [])
    ++ (if anomaly_rate > 8/10 then ["Safety Systems"] else [])
  if affected = [] then ["Monitoring Systems"] else affected

/-- The `downtime_map` of `_estimate_downtime`. -/
def downtime_map : List ((String × String) × ℕ) :=
  [(("Critical", "high"), 240), (("Critical", "medium"), 120),
   (("High", "high"), 120), (("High", "medium"), 60),
   (("Medium", "high"), 60), (("Medium", "medium"), 30)]

/-- Source `_estimate_downtime`. -/
def estimate_downtime (severity impact : String) : ℕ :=
  getD downtime_map (severity, impact) 15

/-- Source `_assess_safety_impact`. -/
def assess_safety_impact (risk_score : ℚ) : String :=
  if risk_score > 8/10 then "Severe - Immediate safety concerns"
  else if risk_score > 6/10 then "Moderate - Safety monitoring required"
  else if risk_score > 3/10 then "Minor - Standard safety protocols"
  else "Minimal - No safety concerns"

/-- Source `_assess_performance_impact`. -/
def assess_performance_impact (anomaly_rate : ℚ) : String :=
  formatPct (anomaly_rate * 100) ++ "% performance degradation"

/-- Source `_determine_priority`. -/
def determine_priority (risk_score : ℚ) (severity : String) : ℕ :=
  if severity = "Critical" ∨ risk_score > 8/10 then 1
  else if severity = "High" ∨ risk_score > 6/10 then 2
  else if severity = "Medium" ∨ risk_score > 4/10 then 3
  else 4

/-- Source `_classify_risk_level` of the operational agent. -/
def classify_risk_level (score : ℚ) : RiskLevel :=
  if score < 3/10 then .low
  else if score < 6/10 then .medium
  else if score < 85/100 then .high
  else .critical

/-- Result dictionary of `OperationalRiskAssessmentAgent.assess_risk`. -/
structure OperationalAssessment where
  operational_risk_score : ℚ
  risk_level : String
  fault_severity : String
  impact_level : String
  likelihood : String
  affected_systems : List String
  estimated_downtime_minutes : ℕ
  safety_impact : String
  performance_degradation : String
  mitigation_priority : ℕ
deriving DecidableEq, Repr

/-- Source `assess_risk` of the operational agent; the inputs are the
`anomaly_rate` and `num_anomalies` entries of the detection-result
dictionary and the `risk_level` entry of the cyber assessment. -/
def assess_risk (anomaly_rate : ℚ) (num_anomalies : ℕ) (cyber_risk_level : String) :
    OperationalAssessment :=
  let impact_level := assess_impact anomaly_rate num_anomalies
  let likelihood := cyber_risk_level
  let op_risk_score := calculate_operational_risk likelihood impact_level
  let fault_severity := assess_fault_severity op_risk_score anomaly_rate
  { operational_risk_score := op_risk_score
    risk_level := (classify_risk_level op_risk_score).value
    fault_severity := fault_severity
    impact_level := impact_level
    likelihood := likelihood
    affected_systems := identify_affected_systems num_anomalies anomaly_rate
    estimated_downtime_minutes := estimate_downtime fault_severity impact_level
    safety_impact := assess_safety_impact op_risk_score
    performance_degradation := assess_performance_impact anomaly_rate
    mitigation_priority := determine_priority op_risk_score fault_severity }

end OperationalRiskAssessmentAgent

/-- First-occurrence deduplication, modelling Python
`list(dict.fromkeys(actions))`: keeps the first occurrence of every
element, in order. -/
def dedupFirst {α : Type} [DecidableEq α] : List α → List α
  | [] => []
  | a :: as => a :: dedupFirst (as.filter (fun b => decide (b ≠ a)))
termination_by l => l.length
decreasing_by
  simp only [List.length_cons]
  exact Nat.lt_succ_of_le (List.length_filter_le _ _)

namespace DecisionMakingAgent

/-- The `self.action_library` dictionary. -/
def action_library : List (String × List String) :=
  [("critical_cyber",
    ["Isolate affected network segments",
     "Activate incident response team",
     "Switch to backup control system",
     "Initiate emergency shutdown protocol",
     "Preserve logs for forensic analysis"]),
   ("high_cyber",
    ["Increase monitoring frequency",
     "Restrict remote access",
     "Verify actuator commands",
     "Alert security operations center"]),
   ("critical_operational",
    ["Emergency shutdown of affected stages",
     "Activate backup water supply",
     "Notify emergency response team",
     "Implement manual override controls",
     "Evacuate non-essential personnel"]),
   ("high_operational",
    ["Reduce process throughput",
     "Activate redundant systems",
     "Increase operator supervision",
     "Prepare for manual intervention"]),
   ("medium_risk",
    ["Continue enhanced monitoring",
     "Log anomalies for analysis",
     "Notify maintenance team",
     "Schedule system inspection"]),
   ("low_risk",
    ["Standard monitoring protocols",
     "Document anomaly in system logs"])]

/-- The `self.stage_actions` dictionary. -/
def stage_actions : List (String × List String) :=
  [("P1", ["Close inlet valve MV101", "Stop pumps P101/P102"]),
   ("P2", ["Isolate chemical dosing", "Stop dosing pumps"]),
   ("P3", ["Bypass ultrafiltration", "Activate backwash"]),
   ("P4", ["Switch to backup UV system", "Adjust dechlorination"]),
   ("P5", ["Reduce RO pressure", "Activate membrane protection"]),
   ("P6", ["Close distribution valves", "Activate storage tanks"])]

/-- Source `_identify_primary_threat`. -/
def identify_primary_threat (cyber_risk operational_risk : String) : String :=
  let risk_scores : List (String × ℕ) :=
    [("low", 1), ("medium", 2), ("high", 3), ("critical", 4)]
  let cyber_score := getD risk_scores cyber_risk 0
  let op_score := getD risk_scores operational_risk 0
  if cyber_score > op_score then "Cyber Attack"
  else if op_score > cyber_score then "Operational Failure"
  else "Combined Cyber-Physical Threat"

/-- The undeduplicated action list built by the if/elif chain of
`_select_actions`, before `list(dict.fromkeys(...))` is applied. -/
def rawActions (cyber_risk operational_risk fault_severity : String) : List String :=
  (if cyber_risk = "critical" then getD action_library "critical_cyber" []
   else if cyber_risk = "high" then getD action_library "high_cyber" []
   else [])
  ++ (if operational_risk = "critical" ∨ fault_severity = "Critical" then
        getD action_library "critical_operational" []
      else if operational_risk = "high" ∨ fault_severity = "High" then
        getD action_library "high_operational" []
      else if operational_risk = "medium" then
        getD action_library "medium_risk" []
      else getD action_library "low_risk" [])

/-- Source `_select_actions`. -/
def select_actions (cyber_risk operational_risk fault_severity : String) : List String :=
  dedupFirst (rawActions cyber_risk operational_risk fault_severity)

/-- Source `_get_stage_actions`. -/
def get_stage_actions (affected_systems : List String) : List String :=
  (if "Primary Treatment" ∈ affected_systems then getD stage_actions "P2" [] else [])
  ++ (if "Distribution System" ∈ affected_systems then getD stage_actions "P6" [] else [])
  ++ (if "Control System" ∈ affected_systems then ["Switch to manual control mode"] else [])
  ++ (if "Safety Systems" ∈ affected_systems then ["Activate emergency safety protocols"] else [])

/-- The immediate / short-term / ongoing buckets of `_prioritize_actions`. -/
structure ActionPriority where
  immediate : List String
  short_term : List String
  ongoing : List String
deriving DecidableEq, Repr

/-- Source `_prioritize_actions`. -/
def prioritize_actions (actions : List String) (priority : ℕ) : ActionPriority :=
  if priority = 1 then
    { immediate := if 3 ≤ actions.length then actions.take 3 else actions
      short_term := if 3 < actions.length then (actions.drop 3).take 3 else []
      ongoing := if 6 < actions.length then actions.drop 6 else [] }
  else if priority = 2 then
    { immediate := if 2 ≤ actions.length then actions.take 2 else actions
      short_term := if 2 < actions.length then (actions.drop 2).take 3 else []
      ongoing := if 5 < actions.length then actions.drop 5 else [] }
  else
    { immediate := if actions ≠ [] then actions.take 1 else []
      short_term := if 1 < actions.length then (actions.drop 1).take 3 else []
      ongoing := if 4 < actions.length then actions.drop 4 else [] }

/-- Source `_calculate_response_timeline`. -/
def calculate_response_timeline (cyber_risk operational_risk fault_severity : String) :
    String :=
  if cyber_risk = "critical" ∨ operational_risk = "critical" then
    "IMMEDIATE (0-5 minutes)"
  else if cyber_risk = "high" ∨ operational_risk = "high" ∨ fault_severity = "High" then
    "URGENT (5-15 minutes)"
  else if cyber_risk = "medium" ∨ operational_risk = "medium" then
    "PRIORITY (15-60 minutes)"
  else "STANDARD (1-24 hours)"

/-- Source `_requires_human_approval`. -/
def requires_human_approval (cyber_risk operational_risk : String) : Bool :=
  cyber_risk = "critical" ∨ operational_risk = "critical"

/-- Source `_generate_rationale`. -/
def generate_rationale (primary_threat : String)
    (cyber : CyberRiskAssessmentAgent.CyberAssessment)
    (operational : OperationalRiskAssessmentAgent.OperationalAssessment) : String :=
  let rationale := "Decision based on " ++ primary_threat.toLower ++ ". "
  let rationale :=
    if cyber.risk_level = "high" ∨ cyber.risk_level = "critical" then
      rationale ++ "Cyber threat detected: " ++ cyber.attack_signature ++ ". "
    else rationale
  let rationale :=
    if operational.risk_level = "high" ∨ operational.risk_level = "critical" then
      rationale ++ "Operational impact: " ++ operational.fault_severity ++ " severity, "
        ++ operational.performance_degradation ++ ". "
    else rationale
  rationale ++ "Estimated recovery: " ++ toString operational.estimated_downtime_minutes
    ++ " minutes."

/-- Source `_get_emergency_contacts`. -/
def get_emergency_contacts (primary_threat : String) : List String :=
  getD
    [("Cyber Attack",
      ["Security Operations Center", "IT Incident Response Team", "Plant Manager"]),
     ("Operational Failure", ["Plant Engineer", "Maintenance Team", "Safety Officer"]),
     ("Combined Cyber-Physical Threat",
      ["Emergency Response Team", "Plant Manager", "Security Team", "Safety Officer"])]
    primary_threat ["Plant Manager"]

/-- Result dictionary of `DecisionMakingAgent.decide`. -/
structure MitigationDecision where
  primary_threat : String
  recommended_actions : List String
  stage_specific_actions : List String
  action_priority : ActionPriority
  response_timeline : String
  requires_human_approval : Bool
  estimated_resolution_time : ℕ
  decision_rationale : String
  emergency_contacts : List String
deriving DecidableEq, Repr

/-- Source method `decide` of `DecisionMakingAgent` (named `decideMitigation`
here because `decide` is taken by the Lean core). -/
def decideMitigation (cyber : CyberRiskAssessmentAgent.CyberAssessment)
    (operational : OperationalRiskAssessmentAgent.OperationalAssessment) :
    MitigationDecision :=
  let cyber_risk := cyber.risk_level
  let operational_risk := operational.risk_level
  let fault_severity := operational.fault_severity
  let affected_systems := operational.affected_systems
  let primary_threat := identify_primary_threat cyber_risk operational_risk
  let recommended_actions := select_actions cyber_risk operational_risk fault_severity
  { primary_threat := primary_threat
    recommended_actions := recommended_actions
    stage_specific_actions := get_stage_actions affected_systems
    action_priority := prioritize_actions recommended_actions operational.mitigation_priority
    response_timeline := calculate_response_timeline cyber_risk operational_risk fault_severity
    requires_human_approval := requires_human_approval cyber_risk operational_risk
    estimated_resolution_time := operational.estimated_downtime_minutes
    decision_rationale := generate_rationale primary_threat cyber operational
    emergency_contacts := get_emergency_contacts primary_threat }

end DecisionMakingAgent

/-! Risk mapping module (`risk_mapping.py`). -/

/-- The 8 system-level risk categories (`RISK_CATEGORIES`). -/
inductive RiskCat where
  | waterOverflow
  | pumpDamage
  | waterQualityDegradation
  | unsafeChemicalDosing
  | processInterruption
  | unauthorizedAccess
  | dataTampering
  | denialOfService
deriving DecidableEq, Repr

/-- Display name of a risk category, as in `RISK_CATEGORIES`. -/
def RiskCat.name : RiskCat → String
  | .waterOverflow => "Water Overflow"
  | .pumpDamage => "Pump Damage"
  | .waterQualityDegradation => "Water Quality Degradation"
  | .unsafeChemicalDosing => "Unsafe Chemical Dosing"
  | .processInterruption => "Process Interruption"
  | .unauthorizedAccess => "Unauthorized Access"
  | .dataTampering => "Data Tampering"
  | .denialOfService => "Denial of Service"

/-- The fixed enumeration order of `RISK_CATEGORIES`. -/
def RISK_CATEGORIES : List RiskCat :=
  [.waterOverflow, .pumpDamage, .waterQualityDegradation, .unsafeChemicalDosing,
   .processInterruption, .unauthorizedAccess, .dataTampering, .denialOfService]

namespace RiskMappingAgent

open RiskCat

/-- The static `SENSOR_RISK_MAP`, in source (insertion) order. -/
def SENSOR_RISK_MAP : List (String × List RiskCat) :=
  [("LIT-101", [waterOverflow, processInterruption, dataTampering]),
   ("FIT-101", [pumpDamage, unsafeChemicalDosing, processInterruption, dataTampering]),
   ("P-101", [pumpDamage, processInterruption]),
   ("P-102", [pumpDamage, processInterruption]),
   ("MV-101", [waterOverflow, processInterruption]),
   ("AIT-101", [waterQualityDegradation, dataTampering]),
   ("AIT-102", [waterQualityDegradation, dataTampering]),
   ("DPIT-101", [pumpDamage, processInterruption]),
   ("FIT-201", [unsafeChemicalDosing, waterQualityDegradation, processInterruption]),
   ("AIT-201", [waterQualityDegradation, unsafeChemicalDosing, dataTampering]),
   ("AIT-202", [waterQualityDegradation, unsafeChemicalDosing, dataTampering]),
   ("AIT-203", [waterQualityDegradation, unsafeChemicalDosing, dataTampering]),
   ("P-201", [pumpDamage, unsafeChemicalDosing]),
   ("P-202", [pumpDamage, unsafeChemicalDosing]),
   ("P-203", [pumpDamage, unsafeChemicalDosing]),
   ("P-204", [pumpDamage, unsafeChemicalDosing]),
   ("MV-201", [unsafeChemicalDosing, processInterruption]),
   ("FIT-301", [pumpDamage, processInterruption, dataTampering]),
   ("LIT-301", [waterOverflow, processInterruption, dataTampering]),
   ("DPIT-301", [pumpDamage, processInterruption]),
   ("P-301", [pumpDamage, processInterruption]),
   ("P-302", [pumpDamage, processInterruption]),
   ("MV-301", [waterOverflow, processInterruption]),
   ("MV-302", [waterOverflow, processInterruption]),
   ("AIT-301", [waterQualityDegradation, dataTampering]),
   ("AIT-302", [waterQualityDegradation, dataTampering]),
   ("AIT-303", [waterQualityDegradation, dataTampering]),
   ("FIT-401", [pumpDamage, processInterruption, dataTampering]),
   ("LIT-401", [waterOverflow, processInterruption, dataTampering]),
   ("AIT-401", [waterQualityDegradation, unsafeChemicalDosing, dataTampering]),
   ("AIT-402", [waterQualityDegradation, unsafeChemicalDosing, dataTampering]),
   ("P-401", [pumpDamage, processInterruption]),
   ("P-402", [pumpDamage, processInterruption]),
   ("P-403", [pumpDamage, processInterruption]),
   ("UV-401", [waterQualityDegradation, processInterruption]),
   ("FIT-501", [pumpDamage, waterQualityDegradation, processInterruption]),
   ("FIT-502", [pumpDamage, waterQualityDegradation, processInterruption]),
   ("FIT-503", [pumpDamage, waterQualityDegradation, processInterruption]),
   ("PIT-501", [pumpDamage, processInterruption, dataTampering]),
   ("PIT-502", [pumpDamage, processInterruption, dataTampering]),
   ("P-501", [pumpDamage, processInterruption]),
   ("P-502", [pumpDamage, processInterruption]),
   ("AIT-501", [waterQualityDegradation, dataTampering]),
   ("FIT-601", [pumpDamage, processInterruption, dataTampering]),
   ("LIT-601", [waterOverflow, processInterruption, dataTampering]),
   ("P-601", [pumpDamage, processInterruption]),
   ("P-602", [pumpDamage, processInterruption]),
   ("P-603", [pumpDamage, processInterruption]),
   ("DPIT-601", [pumpDamage, processInterruption]),
   ("AIT-601", [waterQualityDegradation, dataTampering]),
   ("AIT-602", [waterQualityDegradation, dataTampering])]

/-- The static `SENSOR_STAGE_MAP`. -/
def SENSOR_STAGE_MAP : List (String × String) :=
  [("LIT-101", "P1"), ("FIT-101", "P1"), ("P-101", "P1"), ("P-102", "P1"),
   ("MV-101", "P1"), ("AIT-101", "P1"), ("AIT-102", "P1"), ("DPIT-101", "P1"),
   ("FIT-201", "P2"), ("AIT-201", "P2"), ("AIT-202", "P2"), ("AIT-203", "P2"),
   ("P-201", "P2"), ("P-202", "P2"), ("P-203", "P2"), ("P-204", "P2"), ("MV-201", "P2"),
   ("FIT-301", "P3"), ("LIT-301", "P3"), ("DPIT-301", "P3"), ("P-301", "P3"),
   ("P-302", "P3"), ("MV-301", "P3"), ("MV-302", "P3"), ("AIT-301", "P3"),
   ("AIT-302", "P3"), ("AIT-303", "P3"),
   ("FIT-401", "P4"), ("LIT-401", "P4"), ("AIT-401", "P4"), ("AIT-402", "P4"),
   ("P-401", "P4"), ("P-402", "P4"), ("P-403", "P4"), ("UV-401", "P4"),
   ("FIT-501", "P5"), ("FIT-502", "P5"), ("FIT-503", "P5"), ("PIT-501", "P5"),
   ("PIT-502", "P5"), ("P-501", "P5"), ("P-502", "P5"), ("AIT-501", "P5"),
   ("FIT-601", "P6"), ("LIT-601", "P6"), ("P-601", "P6"), ("P-602", "P6"),
   ("P-603", "P6"), ("DPIT-601", "P6"), ("AIT-601", "P6"), ("AIT-602", "P6")]

/-- Iteration order of `SENSOR_RISK_MAP.keys()` (dictionary insertion order). -/
def SENSOR_LIST : List String := SENSOR_RISK_MAP.map (fun e => e.1)

/-- A pandas DataFrame restricted to what the mapping code observes: the
column labels and the rows, each row being a mapping from column label to
numeric reading. -/
structure Frame where
  cols : List String
  rows : List (String → ℚ)

/-- A whole column of the frame, modelling `sensor_data[sensor_name]`. -/
def Frame.col (f : Frame) (s : String) : List ℚ := f.rows.map (fun r => r s)

/-- Mean of a sensor column (`sensor_column.mean()`). -/
def sample_mean (xs : List ℚ) : ℚ := npMean xs

/-- Sample variance with the Bessel correction of pandas `.std()` (ddof=1).
pandas produces NaN for fewer than two points; a NaN standard deviation
fails both the `std == 0` guard and the `z_score > 2.0` comparison, so the
sensor is not flagged, exactly as the 0 returned here. -/
def sample_var (xs : List ℚ) : ℚ :=
  if xs.length ≤ 1 then 0
  else ((xs.map (fun x => (x - sample_mean xs) ^ 2)).sum) / ((xs.length : ℚ) - 1)

/-- The standard deviation `sensor_column.std()`, as a real number. -/
noncomputable def sample_std (xs : List ℚ) : ℝ :=
  Real.sqrt ((sample_var xs : ℚ) : ℝ)

/-- Source `_is_sensor_anomalous` on a column that is present in the frame.
The source computes `z_score = abs((value - mean) / std)` with
`std = sqrt(var)` and returns `z_score > 2.0`, guarding `std == 0`.  Over
the rationals we keep the equivalent decidable form: the guard `std == 0`
is `var == 0`, and for `std > 0` the test `z > 2` is
`(value - mean)^2 > 4 * var`.  Theorem `c6_sensor_anomaly_boundary` proves
this equivalent to the real-valued z-score formulation. -/
def is_sensor_anomalous (value : ℚ) (xs : List ℚ) : Bool :=
  if sample_var xs = 0 then false
  else decide ((value - sample_mean xs) ^ 2 > 4 * sample_var xs)

/-- Process-lifetime counters of the agent (`self.risk_history`,
`self.sensor_anomaly_counts`, `self.total_anomalies`). -/
structure RMState where
  risk_history : RiskCat → String → ℕ
  sensor_anomaly_counts : String → ℕ
  total_anomalies : ℕ

/-- Fresh agent state (all counters zero). -/
def initRMState : RMState :=
  { risk_history := fun _ _ => 0
    sensor_anomaly_counts := fun _ => 0
    total_anomalies := 0 }

/-- Per-call accumulator of the mapping loop: the agent state plus this
call`s `risk_contributions` (a mapping category to the ordered list of
contributing sensors; absent key = empty list) and `sensor_contributions`
(sensor to category counts, both levels in insertion order). -/
structure LoopState where
  st : RMState
  contribs : RiskCat → List String
  sensor_contribs : List (String × List (RiskCat × ℕ))

/-- Increment a category count inside one sensor entry, creating the key at
the end on first occurrence (Python dict insertion order). -/
def bumpInner (l : List (RiskCat × ℕ)) (r : RiskCat) : List (RiskCat × ℕ) :=
  match l with
  | [] => [(r, 1)]
  | e :: rest => if e.1 = r then (e.1, e.2 + 1) :: rest else e :: bumpInner rest r

/-- Increment `sensor_contributions[sensor][risk]`, creating missing keys at
the end (Python dict insertion order). -/
def bumpSensor (m : List (String × List (RiskCat × ℕ))) (s : String) (r : RiskCat) :
    List (String × List (RiskCat × ℕ)) :=
  match m with
  | [] => [(s, [(r, 1)])]
  | e :: rest => if e.1 = s then (e.1, bumpInner e.2 r) :: rest else e :: bumpSensor rest s r

/-- Body of the inner sensor loop of `map_anomalies_to_risks` for one
anomalous sample row and one sensor name. -/
def processSensor (f : Frame) (row : String → ℚ) (ls : LoopState) (sensor : String) :
    LoopState :=
  if sensor ∈ f.cols then
    if is_sensor_anomalous (row sensor) (f.col sensor) then
      let risks := getD SENSOR_RISK_MAP sensor []
      let st0 :=
        { ls.st with
          sensor_anomaly_counts := fun s0 =>
            if s0 = sensor then ls.st.sensor_anomaly_counts s0 + 1
            else ls.st.sensor_anomaly_counts s0
          total_anomalies := ls.st.total_anomalies + 1 }
      risks.foldl
        (fun acc r =>
          { st :=
              { acc.st with
                risk_history := fun r0 s0 =>
                  if r0 = r ∧ s0 = sensor then acc.st.risk_history r0 s0 + 1
                  else acc.st.risk_history r0 s0 }
            contribs := fun r0 => if r0 = r then acc.contribs r0 ++ [sensor] else acc.contribs r0
            sensor_contribs := bumpSensor acc.sensor_contribs sensor r })
        { ls with st := st0 }
    else ls
  else ls

/-- Body of the outer loop over anomalous sample indices; `iloc` on a bad
index raises, which the surrounding `try` of the source converts into the
empty result. -/
def processSample (f : Frame) (ls : LoopState) (idx : ℕ) : Except String LoopState :=
  match f.rows.get? idx with
  | none => .error "IndexError"
  | some row => .ok (SENSOR_LIST.foldl (processSensor f row) ls)

/-- Indices of samples predicted 1, modelling
`np.where(np.array(predictions) == 1)[0]` (ascending order). -/
def anomalous_indices_from (k : ℕ) : List ℕ → List ℕ
  | [] => []
  | p :: ps =>
    if p = 1 then k :: anomalous_indices_from (k + 1) ps
    else anomalous_indices_from (k + 1) ps

/-- Anomalous sample indices of a prediction list. -/
def anomalous_indices (preds : List ℕ) : List ℕ := anomalous_indices_from 0 preds

/-- Total number of contributions across all categories,
`sum(len(sensors) for sensors in risk_contributions.values())`.  The keys
of the source dictionary are drawn from `RISK_CATEGORIES`, so summing over
the fixed enumeration is the same sum. -/
def total_contributions (c : RiskCat → List String) : ℕ :=
  (RISK_CATEGORIES.map (fun r => (c r).length)).sum

/-- Python `round(q, 3)` (round half to even only differs from this
half-up floor form on exact half-thousandth ties, which the claims never
exercise). -/
def round3 (q : ℚ) : ℚ := ((⌊q * 1000 + 1/2⌋ : ℤ) : ℚ) / 1000

/-- Python `round(q, 1)`. -/
def round1 (q : ℚ) : ℚ := ((⌊q * 10 + 1/2⌋ : ℤ) : ℚ) / 10

/-- Source `_calculate_risk_distribution`, in `RISK_CATEGORIES` order. -/
def calculate_risk_distribution (c : RiskCat → List String) : List (RiskCat × ℚ) :=
  if total_contributions c = 0 then RISK_CATEGORIES.map (fun r => (r, 0))
  else
    RISK_CATEGORIES.map
      (fun r => (r, round3 (((c r).length : ℚ) / (total_contributions c : ℚ))))

/-- Python `max(xs)` over a non-empty list of rationals (0 on empty; the
source never reaches that case because the distribution has 8 entries). -/
def pyMax (xs : List ℚ) : ℚ :=
  match xs with
  | [] => 0
  | x :: rest => rest.foldl max x

/-- Python `max(d, key=d.get)` over the distribution: the first key
attaining the maximal value, in dictionary (enumeration) order. -/
def argmaxFirst (l : List (RiskCat × ℚ)) : RiskCat :=
  match l with
  | [] => .waterOverflow
  | e :: es => (es.foldl (fun best x => if x.2 > best.2 then x else best) e).1

/-- First maximal key of an insertion-ordered count dictionary, modelling
`max(risks, key=risks.get)`. -/
def argmaxFirstCount (l : List (RiskCat × ℕ)) : RiskCat :=
  match l with
  | [] => .waterOverflow
  | e :: es => (es.foldl (fun best x => if x.2 > best.2 then x else best) e).1

/-- Stable insertion into a list sorted descending by count, placing the
new element after existing elements with a greater or equal count.  Used to
model Python `sorted(..., key=lambda x: x[1], reverse=True)`, which is a
stable descending sort. -/
def insertDesc (p : String × ℕ) : List (String × ℕ) → List (String × ℕ)
  | [] => [p]
  | q :: qs => if p.2 ≤ q.2 then q :: insertDesc p qs else p :: q :: qs

/-- Stable descending-by-count sort of a count dictionary. -/
def sortDescByCount (l : List (String × ℕ)) : List (String × ℕ) :=
  l.foldl (fun acc p => insertDesc p acc) []

/-- Ascending lexicographic insertion for strings (Python `sorted`). -/
def insertAsc (s : String) : List String → List String
  | [] => [s]
  | t :: ts => if t ≤ s then t :: insertAsc s ts else s :: t :: ts

/-- Python `sorted` on a list of strings. -/
def sortedStrings (l : List String) : List String :=
  l.foldl (fun acc s => insertAsc s acc) []

/-- Increment one key of an insertion-ordered count dictionary, creating a
missing key at the end. -/
def bumpCount : List (String × ℕ) → String → List (String × ℕ)
  | [], s => [(s, 1)]
  | e :: rest, s => if e.1 = s then (e.1, e.2 + 1) :: rest else e :: bumpCount rest s

/-- Occurrence counts of a contribution list in first-occurrence order,
modelling the `defaultdict(int)` built in `_get_risk_details`. -/
def countOcc (l : List String) : List (String × ℕ) :=
  l.foldl bumpCount []

/-- The `majority_risk` sub-dictionary. -/
structure MajorityRisk where
  category : String
  percentage : ℚ
  count : ℕ
  affected_sensors : List String
  affected_stages : List String
  severity : String
  description : String
deriving DecidableEq, Repr

/-- One entry of `sensor_contributions`. -/
structure SensorContribution where
  risks : List String
  anomaly_count : ℕ
  primary_risk : String
  stage : String
deriving DecidableEq, Repr

/-- One sensor entry inside a `risk_details` record. -/
structure RiskDetailEntry where
  id : String
  count : ℕ
  stage : String
deriving DecidableEq, Repr

/-- One `risk_details` record. -/
structure RiskDetail where
  sensors : List RiskDetailEntry
  total : ℕ
  unique_sensors : ℕ
deriving DecidableEq, Repr

/-- The dictionary returned by `map_anomalies_to_risks`. -/
structure RiskMappingResult where
  distribution : List (RiskCat × ℚ)
  majority_risk : MajorityRisk
  sensor_contributions : List (String × SensorContribution)
  risk_details : List (RiskCat × RiskDetail)
  total_anomalies_analyzed : ℕ
deriving DecidableEq, Repr

/-- Source `_generate_risk_description`. -/
def generate_risk_description (risk_name : String) (stages : List String) : String :=
  let joined := String.intercalate ", " stages
  getD
    [("Water Overflow", "Tank level sensors showing overflow conditions in stages " ++ joined),
     ("Pump Damage", "Pump or flow sensors indicating damage risk in stages " ++ joined),
     ("Water Quality Degradation",
      "Water quality sensors detecting contamination in stages " ++ joined),
     ("Unsafe Chemical Dosing",
      "Chemical dosing sensors showing unsafe levels in stages " ++ joined),
     ("Process Interruption",
      "Critical process sensors indicating potential shutdown in stages " ++ joined),
     ("Unauthorized Access",
      "Security breach detected affecting sensors in stages " ++ joined),
     ("Data Tampering", "Sensor data integrity compromised in stages " ++ joined),
     ("Denial of Service", "Communication loss with sensors in stages " ++ joined)]
    risk_name ("Risk detected in stages " ++ joined)

/-- Source `_identify_majority_risk`.  Python `list(set(...))` returns the
distinct elements in an unspecified (hash) order; it is modelled as
first-occurrence order, and no claim depends on that order. -/
def identify_majority_risk (distribution : List (RiskCat × ℚ))
    (c : RiskCat → List String) : MajorityRisk :=
  if distribution = [] ∨ pyMax (distribution.map (fun p => p.2)) = 0 then
    { category := "None"
      percentage := 0
      count := 0
      affected_sensors := []
      affected_stages := []
      severity := "Low"
      description := "No dominant risk detected" }
  else
    let majority := argmaxFirst distribution
    let percentage := getD distribution majority 0
    let affected_sensors := dedupFirst (c majority)
    let count := (c majority).length
    let affected_stages :=
      dedupFirst (affected_sensors.map (fun s => getD SENSOR_STAGE_MAP s "Unknown"))
    let severity :=
      if percentage ≥ 4/10 then "Critical"
      else if percentage ≥ 25/100 then "High"
      else if percentage ≥ 15/100 then "Medium"
      else "Low"
    { category := majority.name
      percentage := round1 (percentage * 100)
      count := count
      affected_sensors := affected_sensors.take 5
      affected_stages := sortedStrings affected_stages
      severity := severity
      description := generate_risk_description majority.name (sortedStrings affected_stages) }

/-- Source `_get_sensor_contributions`. -/
def get_sensor_contributions (sc : List (String × List (RiskCat × ℕ))) :
    List (String × SensorContribution) :=
  sc.map
    (fun e =>
      (e.1,
       { risks := e.2.map (fun p => p.1.name)
         anomaly_count := (e.2.map (fun p => p.2)).sum
         primary_risk := if e.2 = [] then "Unknown" else (argmaxFirstCount e.2).name
         stage := getD SENSOR_STAGE_MAP e.1 "Unknown" }))

/-- Source `_get_risk_details`. -/
def get_risk_details (c : RiskCat → List String) : List (RiskCat × RiskDetail) :=
  RISK_CATEGORIES.map
    (fun r =>
      let sensors := c r
      let sensor_counts := countOcc sensors
      let sorted := sortDescByCount sensor_counts
      (r,
       { sensors :=
           (sorted.take 10).map
             (fun p => { id := p.1, count := p.2, stage := getD SENSOR_STAGE_MAP p.1 "Unknown" })
         total := sensors.length
         unique_sensors := sensor_counts.length }))

/-- Source `_empty_risk_mapping`. -/
def empty_risk_mapping : RiskMappingResult :=
  { distribution := RISK_CATEGORIES.map (fun r => (r, 0))
    majority_risk :=
      { category := "None"
        percentage := 0
        count := 0
        affected_sensors := []
        affected_stages := []
        severity := "Low"
        description := "No anomalies detected" }
    sensor_contributions := []
    risk_details := RISK_CATEGORIES.map (fun r => (r, { sensors := [], total := 0, unique_sensors := 0 }))
    total_anomalies_analyzed := 0 }

/-- The `anomaly_data` argument of `map_anomalies_to_risks`:
`predictions` and `sensor_data` (the `attack_probabilities` entry is unused
by the body). -/
structure RMInput where
  predictions : List ℕ
  sensor_data : Option Frame

/-- Source `map_anomalies_to_risks`.  Returns the updated agent state and
the result dictionary.  An exception inside the analysis loop (the `iloc`
of an out-of-range index) is caught by the surrounding `try` and yields the
empty result; in that case the source keeps any partial counter updates,
which no claim observes, and the state is returned unchanged here. -/
def map_anomalies_to_risks (st : RMState) (inp : RMInput) : RMState × RiskMappingResult :=
  match inp.sensor_data with
  | none => (st, empty_risk_mapping)
  | some f =>
    if inp.predictions.length = 0 then (st, empty_risk_mapping)
    else
      let idxs := anomalous_indices inp.predictions
      if idxs.length = 0 then (st, empty_risk_mapping)
      else
        match idxs.foldlM (processSample f) { st := st, contribs := fun _ => [], sensor_contribs := [] } with
        | .error _ => (st, empty_risk_mapping)
        | .ok ls =>
          let distribution := calculate_risk_distribution ls.contribs
          (ls.st,
           { distribution := distribution
             majority_risk := identify_majority_risk distribution ls.contribs
             sensor_contributions := get_sensor_contributions ls.sensor_contribs
             risk_details := get_risk_details ls.contribs
             total_anomalies_analyzed := idxs.length })

end RiskMappingAgent

/-! Coordinator (`CoordinationAgent`) and the detection-result dictionary it
routes between the agents.  String-keyed dictionary access is modelled
explicitly so that a missing key raises a KeyError, as in Python. -/

/-- A Python value as it appears in the dictionaries the coordinator moves
around. -/
inductive PyVal where
  | boolList : List Bool → PyVal
  | ratList : List ℚ → PyVal
  | natList : List ℕ → PyVal
  | natVal : ℕ → PyVal
  | ratVal : ℚ → PyVal
  | frameVal : RiskMappingAgent.Frame → PyVal

/-- A string-keyed Python dictionary. -/
abbrev Dict := List (String × PyVal)

/-- Subscript access `d[k]`; a missing key raises KeyError. -/
def getItem : Dict → String → Except String PyVal
  | [], k => .error ("KeyError: " ++ k)
  | e :: rest, k => if e.1 = k then .ok e.2 else getItem rest k

namespace FaultDetectionAgent

/-- Source `detect`.  The trained model is external: its per-sample label
output (`model.predict`) and class-probability rows (`model.predict_proba`,
as (class0, class1) pairs) are the arguments, and the function builds the
result dictionary exactly as the source does: keys `anomaly_detected`,
`attack_probability`, `predictions`, `confidence`, `num_anomalies`,
`anomaly_rate`. -/
def detect (y_pred : List ℕ) (proba : List (ℚ × ℚ)) : Dict :=
  let y_prob := proba.map (fun p => p.2)
  let anomaly_flags := y_pred.map (fun p => p == 1)
  let confidence := proba.map (fun p => max p.1 p.2)
  [("anomaly_detected", .boolList anomaly_flags),
   ("attack_probability", .ratList y_prob),
   ("predictions", .natList y_pred),
   ("confidence", .ratList confidence),
   ("num_anomalies", .natVal (anomaly_flags.count true)),
   ("anomaly_rate", .ratVal (npMean (anomaly_flags.map (fun b => if b then 1 else 0))))]

end FaultDetectionAgent

namespace CoordinationAgent

/-- The `system_state` strings of the coordinator. -/
inductive SysState where
  | INITIALIZED
  | READY
  | PROCESSING
  | COMPLETED
  | ERROR
deriving DecidableEq, Repr

/-- The coordinator.  Collaborators are registered as optional functions;
calling through an unregistered slot raises (AttributeError on None in the
source), modelled by `callOpt`.  Each collaborator returns `Except` so a
raising stage is representable.  Log entries are (level, message) pairs;
the wall-clock timestamp the source also records is omitted. -/
structure Coordinator where
  perception_agent :
    Option (RiskMappingAgent.Frame → Except String (List (List ℚ) × List ℕ))
  fault_detection_agent : Option (List (List ℚ) → Except String Dict)
  cyber_risk_agent :
    Option (Dict → List ℕ → Except String CyberRiskAssessmentAgent.CyberAssessment)
  operational_risk_agent :
    Option (Dict → CyberRiskAssessmentAgent.CyberAssessment →
      Except String OperationalRiskAssessmentAgent.OperationalAssessment)
  decision_agent :
    Option (CyberRiskAssessmentAgent.CyberAssessment →
      OperationalRiskAssessmentAgent.OperationalAssessment →
      Except String DecisionMakingAgent.MitigationDecision)
  risk_mapping_agent : Option (Dict → Except String RiskMappingAgent.RiskMappingResult)
  execution_log : List (String × String)
  system_state : SysState

/-- A freshly constructed coordinator (`__init__`). -/
def initCoordinator : Coordinator :=
  { perception_agent := none
    fault_detection_agent := none
    cyber_risk_agent := none
    operational_risk_agent := none
    decision_agent := none
    risk_mapping_agent := none
    execution_log := []
    system_state := .INITIALIZED }

/-- Source `_log_event`. -/
def logEvent (c : Coordinator) (level msg : String) : Coordinator :=
  { c with execution_log := c.execution_log ++ [(level, msg)] }

/-- Source `register_agents`: installs all collaborators and moves the
machine to READY. -/
def register_agents (c : Coordinator)
    (perception : RiskMappingAgent.Frame → Except String (List (List ℚ) × List ℕ))
    (fault_detection : List (List ℚ) → Except String Dict)
    (cyber_risk : Dict → List ℕ → Except String CyberRiskAssessmentAgent.CyberAssessment)
    (operational_risk : Dict → CyberRiskAssessmentAgent.CyberAssessment →
      Except String OperationalRiskAssessmentAgent.OperationalAssessment)
    (decision_making : CyberRiskAssessmentAgent.CyberAssessment →
      OperationalRiskAssessmentAgent.OperationalAssessment →
      Except String DecisionMakingAgent.MitigationDecision)
    (risk_mapping : Option (Dict → Except String RiskMappingAgent.RiskMappingResult)) :
    Coordinator :=
  logEvent
    { c with
      perception_agent := some perception
      fault_detection_agent := some fault_detection
      cyber_risk_agent := some cyber_risk
      operational_risk_agent := some operational_risk
      decision_agent := some decision_making
      risk_mapping_agent := risk_mapping
      system_state := .READY }
    "INFO" "All agents registered"

/-- Method call through an optional collaborator slot; `none` raises the
AttributeError the source would raise on a None agent. -/
def callOpt {α β : Type} (f : Option (α → Except String β)) (a : α) : Except String β :=
  match f with
  | none => .error "AttributeError: NoneType has no such attribute"
  | some g => g a

/-- Two-argument version of `callOpt`. -/
def callOpt2 {α β γ : Type} (f : Option (α → β → Except String γ)) (a : α) (b : β) :
    Except String γ :=
  match f with
  | none => .error "AttributeError: NoneType has no such attribute"
  | some g => g a b

/-- The success payload of `process_data` (`status == SUCCESS`).  The
`risk_mapping` key is present exactly when the optional field is `some`. -/
structure SuccessResult where
  detection_results : Dict
  cyber_assessment : CyberRiskAssessmentAgent.CyberAssessment
  operational_assessment : OperationalRiskAssessmentAgent.OperationalAssessment
  decisions : DecisionMakingAgent.MitigationDecision
  risk_mapping : Option RiskMappingAgent.RiskMappingResult
  execution_log : List (String × String)

/-- The dictionary `process_data` returns. -/
inductive ProcResult where
  | success : SuccessResult → ProcResult
  | failure : String → List (String × String) → ProcResult

/-- The `status` entry of the result. -/
def ProcResult.status : ProcResult → String
  | .success _ => "SUCCESS"
  | .failure _ _ => "ERROR"

/-- The `risk_mapping` entry of the result (absent on error and when
mapping produced nothing). -/
def ProcResult.riskMappingField : ProcResult → Option RiskMappingAgent.RiskMappingResult
  | .success r => r.risk_mapping
  | .failure _ _ => none

/-- The mandatory chain of `process_data`: preprocess, detect, cyber,
operational, decision.  Any raise (including the AttributeError from an
unregistered collaborator) aborts the chain. -/
def mandatoryChain (c : Coordinator) (raw : RiskMappingAgent.Frame) :
    Except String
      (Dict × CyberRiskAssessmentAgent.CyberAssessment ×
        OperationalRiskAssessmentAgent.OperationalAssessment ×
        DecisionMakingAgent.MitigationDecision) := do
  let pt ← callOpt c.perception_agent raw
  let det ← callOpt c.fault_detection_agent pt.1
  let cyber ← callOpt2 c.cyber_risk_agent det pt.2
  let operational ← callOpt2 c.operational_risk_agent det cyber
  let dec ← callOpt2 c.decision_agent cyber operational
  pure (det, cyber, operational, dec)

/-- The dictionary literal handed to the risk mapper inside `process_data`;
its evaluation reads `detection_results["predictions"]` and then
`detection_results["attack_probabilities"]`, raising KeyError on a missing
key before the mapper is ever invoked. -/
def buildRMInput (det : Dict) (raw : RiskMappingAgent.Frame) : Except String Dict := do
  let p ← getItem det "predictions"
  let ap ← getItem det "attack_probabilities"
  pure [("predictions", p), ("attack_probabilities", ap), ("sensor_data", .frameVal raw)]

/-- Source `process_data`: logs the start, runs the mandatory chain inside
the outer `try`, then the best-effort risk-mapping branch inside its own
`try/except` (failure logged as a warning), and finally returns either the
success or the structured error dictionary. -/
def process_data (c : Coordinator) (raw : RiskMappingAgent.Frame) :
    Coordinator × ProcResult :=
  let c1 := logEvent c "INFO" "Starting data processing pipeline"
  let c1 := { c1 with system_state := .PROCESSING }
  match mandatoryChain c1 raw with
  | .error e =>
    let c2 := logEvent { c1 with system_state := .ERROR } "ERROR" ("Pipeline error: " ++ e)
    (c2, .failure e c2.execution_log)
  | .ok (det, cyber, operational, dec) =>
    let step :=
      match c1.risk_mapping_agent with
      | none => (c1, none)
      | some mapper =>
        match buildRMInput det raw >>= mapper with
        | .ok r => (logEvent c1 "INFO" "Risk mapping completed", some r)
        | .error e => (logEvent c1 "WARNING" ("Risk mapping error: " ++ e), none)
    let c3 := logEvent { step.1 with system_state := .COMPLETED }
      "SUCCESS" "Pipeline completed successfully"
    (c3,
     .success
       { detection_results := det
         cyber_assessment := cyber
         operational_assessment := operational
         decisions := dec
         risk_mapping := step.2
         execution_log := c3.execution_log })

end CoordinationAgent

/-! Auxiliary definitions used by the verification: a helper for relating
the temporal loop to `longestRun`, and the concrete inputs of the
end-to-end scenario, counterexamples and witnesses. -/

/-- Longest run of `true` reachable when a run of length `c` is already in
progress; relates the fold of `_analyze_temporal_pattern` to
`longestRun`. -/
def bestFrom (c : ℕ) : List Bool → ℕ
  | [] => 0
  | f :: fs => if f then max (c + 1) (bestFrom (c + 1) fs) else bestFrom 0 fs

/-- Label sequence of the end-to-end scenario of claim C1: 100 samples,
85 positive, longest consecutive positive run 12. -/
def c1Flags : List Bool :=
  List.replicate 12 true ++ [false] ++ List.replicate 11 true ++ [false] ++
  List.replicate 11 true ++ [false] ++ List.replicate 11 true ++ [false] ++
  List.replicate 10 true ++ [false] ++ List.replicate 10 true ++ [false] ++
  List.replicate 10 true ++ [false] ++ List.replicate 10 true ++ List.replicate 8 false

/-- Attack probabilities of the C1 scenario: 0.90 for every sample, so the
batch mean and the positive-sample mean are both 0.90. -/
def c1Probs : List ℚ := List.replicate 100 (9/10)

/-- Cyber assessment of the C1 scenario (timestamps supplied). -/
def c1Cyber : CyberRiskAssessmentAgent.CyberAssessment :=
  CyberRiskAssessmentAgent.assess_risk c1Probs c1Flags (some (List.range 100))

/-- Operational assessment of the C1 scenario, fed the detection batch
statistics and the cyber risk level exactly as the coordinator feeds
them. -/
def c1Op : OperationalRiskAssessmentAgent.OperationalAssessment :=
  OperationalRiskAssessmentAgent.assess_risk c1Cyber.anomaly_rate (c1Flags.count true)
    c1Cyber.risk_level

/-- Mitigation decision of the C1 scenario. -/
def c1Dec : DecisionMakingAgent.MitigationDecision :=
  DecisionMakingAgent.decideMitigation c1Cyber c1Op

/-- A sensor frame row holding a single LIT-101 reading. -/
def c2Row (v : ℚ) : String → ℚ := fun s => if s = "LIT-101" then v else 0

/-- Seven-row frame with one LIT-101 column: six readings of 0 and one of 7.
The final reading has squared deviation 36 against 4 times the sample
variance 7, so it is flagged. -/
def c2Frame : RiskMappingAgent.Frame :=
  { cols := ["LIT-101"]
    rows := [c2Row 0, c2Row 0, c2Row 0, c2Row 0, c2Row 0, c2Row 0, c2Row 7] }

/-- Mapping-call input whose single anomalous sample flags LIT-101 only,
producing one contribution in each of its three categories. -/
def c2Input : RiskMappingAgent.RMInput :=
  { predictions := [0, 0, 0, 0, 0, 0, 1], sensor_data := some c2Frame }

/-- Contribution map with a single contribution, used to witness the
amended distribution-sum bound. -/
def c2WitnessContribs : RiskCat → List String :=
  fun r => if r = RiskCat.waterOverflow then ["LIT-101"] else []

/-- Labels of the 20-sample batch with a longest positive run of 7. -/
def c4Flags20 : List Bool :=
  List.replicate 7 true ++ [false] ++ List.replicate 3 true ++ [false] ++
  List.replicate 2 true ++ List.replicate 6 false

/-- An empty frame for exercising the coordinator. -/
def emptyFrame : RiskMappingAgent.Frame := { cols := [], rows := [] }

/-- A concrete cyber assessment used by the coordinator witnesses. -/
def wCyber : CyberRiskAssessmentAgent.CyberAssessment :=
  CyberRiskAssessmentAgent.assess_risk [] [] none

/-- A concrete operational assessment used by the coordinator witnesses. -/
def wOp : OperationalRiskAssessmentAgent.OperationalAssessment :=
  OperationalRiskAssessmentAgent.assess_risk 0 0 "low"

/-- A concrete mitigation decision used by the coordinator witnesses. -/
def wDec : DecisionMakingAgent.MitigationDecision :=
  DecisionMakingAgent.decideMitigation wCyber wOp

/-- A detection dictionary that does carry an `attack_probabilities` key, so
that the mapper itself is reached and its failure is what the C7 witness
exercises. -/
def c7Det : Dict :=
  [("predictions", .natList []), ("attack_probabilities", .ratList [])]

/-- Fully registered coordinator whose risk mapper raises. -/
def c7Coordinator : CoordinationAgent.Coordinator :=
  { perception_agent := some fun _ => .ok ([], [])
    fault_detection_agent := some fun _ => .ok c7Det
    cyber_risk_agent := some fun _ _ => .ok wCyber
    operational_risk_agent := some fun _ _ => .ok wOp
    decision_agent := some fun _ _ => .ok wDec
    risk_mapping_agent := some fun _ => .error "mapper exploded"
    execution_log := []
    system_state := .READY }

/-- Fully registered coordinator whose fault-detection stage returns the
real `detect` dictionary and whose mapper would succeed if it were ever
reached. -/
def c10Coordinator : CoordinationAgent.Coordinator :=
  { perception_agent := some fun _ => .ok ([], [])
    fault_detection_agent := some fun _ => .ok (FaultDetectionAgent.detect [0] [(1/2, 1/2)])
    cyber_risk_agent := some fun _ _ => .ok wCyber
    operational_risk_agent := some fun _ _ => .ok wOp
    decision_agent := some fun _ _ => .ok wDec
    risk_mapping_agent := some fun _ => .ok RiskMappingAgent.empty_risk_mapping
    execution_log := []
    system_state := .READY }

/-! General lemmas shared by the claim theorems. -/

/-- Summing the 0/1 image of a flag list counts the `true` flags. -/
theorem sum_map_boolQ (flags : List Bool) :
    ((flags.map fun f => if f then (1 : ℚ) else 0).sum) = flags.count true := by
  induction flags with
  | nil => simp
  | cons f fs ih => cases f <;> simp [ih, List.count_cons, add_comm]

/-- The fold of the temporal loop computes `bestFrom` below the running
maximum. -/
theorem foldl_consecStep_eq (l : List Bool) :
    ∀ c m, (l.foldl CyberRiskAssessmentAgent.consecStep (c, m)).2 = max m (bestFrom c l) := by
  induction l with
  | nil => intro c m; simp [bestFrom]
  | cons f fs ih =>
    intro c m
    cases f
    · simp [CyberRiskAssessmentAgent.consecStep, bestFrom, ih]
    · simp [CyberRiskAssessmentAgent.consecStep, bestFrom, ih, max_assoc]

/-- The leading run never exceeds the longest run. -/
theorem leadingTrue_le_longestRun (l : List Bool) : leadingTrue l ≤ longestRun l := by
  cases l with
  | nil => simp [leadingTrue, longestRun]
  | cons f fs => exact le_max_left _ _

/-- Closed form of `bestFrom` in terms of the leading run and the longest
run of the remaining list. -/
theorem bestFrom_eq (l : List Bool) :
    ∀ c, bestFrom c l =
      max (if leadingTrue l = 0 then 0 else c + leadingTrue l) (longestRun l) := by
  induction l with
  | nil => intro c; simp [bestFrom, longestRun, leadingTrue]
  | cons f fs ih =>
    intro c
    have hb := leadingTrue_le_longestRun fs
    cases f
    · rw [show bestFrom c (false :: fs) = bestFrom 0 fs from by simp [bestFrom],
        show leadingTrue (false :: fs) = 0 from by simp [leadingTrue],
        show longestRun (false :: fs) = max (leadingTrue (false :: fs)) (longestRun fs) from rfl,
        show leadingTrue (false :: fs) = 0 from by simp [leadingTrue], ih 0]
      simp only [Nat.max_def]
      split_ifs <;> first | exact ‹False›.elim | omega
    · rw [show bestFrom c (true :: fs) = max (c + 1) (bestFrom (c + 1) fs) from by
          simp [bestFrom],
        show leadingTrue (true :: fs) = leadingTrue fs + 1 from by simp [leadingTrue],
        show longestRun (true :: fs) = max (leadingTrue (true :: fs)) (longestRun fs) from rfl,
        show leadingTrue (true :: fs) = leadingTrue fs + 1 from by simp [leadingTrue],
        ih (c + 1)]
      simp only [Nat.max_def]
      split_ifs <;> first | exact ‹False›.elim | omega

/-- The loop of `_analyze_temporal_pattern` computes exactly the longest
consecutive run of positive flags. -/
theorem max_consecutive_eq_longestRun (l : List Bool) :
    CyberRiskAssessmentAgent.max_consecutive l = longestRun l := by
  have hb := leadingTrue_le_longestRun l
  rw [CyberRiskAssessmentAgent.max_consecutive, foldl_consecStep_eq, bestFrom_eq]
  simp only [Nat.max_def]
  split_ifs <;> first | exact ‹False›.elim | omega

/-- A block of `k` consecutive `true` flags bounds the leading run once it
is a prefix. -/
theorem replicate_true_le_leadingTrue (k : ℕ) :
    ∀ l : List Bool, List.replicate k true <+: l → k ≤ leadingTrue l := by
  induction k with
  | zero => intro l _; exact Nat.zero_le _
  | succ k ih =>
    intro l h
    rw [List.replicate_succ] at h
    cases l with
    | nil => exact absurd h (by simp)
    | cons f fs =>
      rcases List.cons_prefix_cons.mp h with ⟨hf, htail⟩
      obtain rfl : f = true := hf.symm
      have := ih fs htail
      simp only [leadingTrue, if_true]
      omega

/-- The leading run of `true` flags is realized as a prefix. -/
theorem replicate_leadingTrue_realized (l : List Bool) :
    List.replicate (leadingTrue l) true <+: l := by
  induction l with
  | nil => simp [leadingTrue]
  | cons f fs ih =>
    cases f
    · simp [leadingTrue]
    · simp only [leadingTrue, if_true, List.replicate_succ]
      exact List.cons_prefix_cons.mpr ⟨rfl, ih⟩

/-- The longest run is realized as an infix block of `true` flags. -/
theorem replicate_longestRun_isInfix (l : List Bool) :
    List.replicate (longestRun l) true <:+: l := by
  induction l with
  | nil => simp [longestRun]
  | cons f fs ih =>
    simp only [longestRun]
    rcases Nat.le_total (leadingTrue (f :: fs)) (longestRun fs) with h | h
    · rw [Nat.max_eq_right h]
      exact ih.trans (List.infix_cons (List.infix_refl fs))
    · rw [Nat.max_eq_left h]
      exact (replicate_leadingTrue_realized (f :: fs)).isInfix

/-- Any infix block of `true` flags is bounded by the longest run. -/
theorem le_longestRun_of_infix (k : ℕ) (l : List Bool)
    (h : List.replicate k true <:+: l) : k ≤ longestRun l := by
  induction l with
  | nil =>
    have := List.eq_nil_of_infix_nil h
    have : k = 0 := by simpa using congrArg List.length this
    omega
  | cons f fs ih =>
    rcases List.infix_cons_iff.mp h with h | h
    · calc k ≤ leadingTrue (f :: fs) := replicate_true_le_leadingTrue k _ h
        _ ≤ longestRun (f :: fs) := leadingTrue_le_longestRun _
    · exact (ih h).trans (le_max_right _ _)

/-- The longest run is bounded by the batch size. -/
theorem longestRun_le_length (l : List Bool) : longestRun l ≤ l.length := by
  have h := (replicate_longestRun_isInfix l).length_le
  simpa using h

/-- C4.  For every batch processed with its timestamp series (one timestamp
per sample, as the coordinator supplies), the temporal-risk score of the
cyber assessment is 0 when the batch has fewer than 10 samples and
otherwise equals min(1, longest consecutive positive run / 10); the
`longestRun` quantity is exactly the longest block of consecutive positive
labels (greatest replicated-true infix), and any run of at least 10 yields
exactly 1. -/
theorem c4_temporal_risk (probs : List ℚ) (flags : List Bool) (ts : List ℕ)
    (hts : ts.length = flags.length) :
    ((CyberRiskAssessmentAgent.assess_risk probs flags (some ts)).temporal_risk
        = if flags.length < 10 then 0 else min 1 ((longestRun flags : ℚ) / 10)) ∧
    List.replicate (longestRun flags) true <:+: flags ∧
    (∀ k, List.replicate k true <:+: flags → k ≤ longestRun flags) ∧
    (10 ≤ longestRun flags →
      (CyberRiskAssessmentAgent.assess_risk probs flags (some ts)).temporal_risk = 1) := by
  have hfield :
      (CyberRiskAssessmentAgent.assess_risk probs flags (some ts)).temporal_risk
        = if 1 < ts.length then CyberRiskAssessmentAgent.analyze_temporal_pattern flags else 0 := by
    simp only [CyberRiskAssessmentAgent.assess_risk]
  have hmain :
      (CyberRiskAssessmentAgent.assess_risk probs flags (some ts)).temporal_risk
        = if flags.length < 10 then 0 else min 1 ((longestRun flags : ℚ) / 10) := by
    rw [hfield]
    by_cases h10 : flags.length < 10
    · rw [if_pos h10]
      split
      · rw [CyberRiskAssessmentAgent.analyze_temporal_pattern, if_pos h10]
      · rfl
    · rw [if_neg h10, if_pos (by omega : 1 < ts.length),
        CyberRiskAssessmentAgent.analyze_temporal_pattern, if_neg h10,
        max_consecutive_eq_longestRun]
  refine ⟨hmain, replicate_longestRun_isInfix flags,
    fun k hk => le_longestRun_of_infix k flags hk, fun hrun => ?_⟩
  have hlen : 10 ≤ flags.length := le_trans hrun (longestRun_le_length flags)
  rw [hmain, if_neg (by omega)]
  have : (1 : ℚ) ≤ (longestRun flags : ℚ) / 10 := by
    rw [le_div_iff₀ (by norm_num)]
    exact_mod_cast by omega
  exact min_eq_left this

/-- Witness for C4: a 20-sample batch with longest run 7 scores 0.7, a
9-sample batch scores 0 despite an all-positive run, and a 12-run batch
saturates at 1. -/
theorem c4_temporal_risk_witness :
    (CyberRiskAssessmentAgent.assess_risk (List.replicate 20 (1/2)) c4Flags20
        (some (List.range 20))).temporal_risk = 7/10 ∧
    (CyberRiskAssessmentAgent.assess_risk (List.replicate 9 (1/2)) (List.replicate 9 true)
        (some (List.range 9))).temporal_risk = 0 ∧
    (CyberRiskAssessmentAgent.assess_risk (List.replicate 12 (1/2)) (List.replicate 12 true)
        (some (List.range 12))).temporal_risk = 1 := by
  refine ⟨?_, ?_, ?_⟩
  · rw [(c4_temporal_risk _ c4Flags20 (List.range 20) (by decide)).1,
      if_neg (by decide), show longestRun c4Flags20 = 7 by decide]
    rw [min_def, if_neg (by norm_num)]
    norm_num
  · rw [(c4_temporal_risk _ (List.replicate 9 true) (List.range 9) (by decide)).1,
      if_pos (by decide)]
  · exact (c4_temporal_risk _ (List.replicate 12 true) (List.range 12) (by decide)).2.2.2
      (by decide)

/-- C5.  The cyber risk-level thresholds are strict upper bounds on the
lower bucket: score < 0.3 is low, 0.3 to below 0.6 is medium, 0.6 to below
0.85 is high, and 0.85 upward is critical. -/
theorem c5_risk_level_thresholds (score : ℚ) :
    (score < 3/10 → CyberRiskAssessmentAgent.classify_risk_level score = .low) ∧
    (3/10 ≤ score → score < 6/10 →
      CyberRiskAssessmentAgent.classify_risk_level score = .medium) ∧
    (6/10 ≤ score → score < 85/100 →
      CyberRiskAssessmentAgent.classify_risk_level score = .high) ∧
    (85/100 ≤ score → CyberRiskAssessmentAgent.classify_risk_level score = .critical) := by
  refine ⟨fun h => ?_, fun h1 h2 => ?_, fun h1 h2 => ?_, fun h => ?_⟩ <;>
    simp only [CyberRiskAssessmentAgent.classify_risk_level,
      CyberRiskAssessmentAgent.prob_thresholds_low,
      CyberRiskAssessmentAgent.prob_thresholds_medium,
      CyberRiskAssessmentAgent.prob_thresholds_high] <;>
    split_ifs <;> first | rfl | linarith

/-- Witness for C5: the boundary scores 0.29, 0.30, 0.59, 0.60, 0.84 and
0.85 classify as low, medium, medium, high, high and critical. -/
theorem c5_risk_level_thresholds_witness :
    CyberRiskAssessmentAgent.classify_risk_level (29/100) = .low ∧
    CyberRiskAssessmentAgent.classify_risk_level (30/100) = .medium ∧
    CyberRiskAssessmentAgent.classify_risk_level (59/100) = .medium ∧
    CyberRiskAssessmentAgent.classify_risk_level (60/100) = .high ∧
    CyberRiskAssessmentAgent.classify_risk_level (84/100) = .high ∧
    CyberRiskAssessmentAgent.classify_risk_level (85/100) = .critical :=
  ⟨(c5_risk_level_thresholds _).1 (by norm_num),
   (c5_risk_level_thresholds _).2.1 (by norm_num) (by norm_num),
   (c5_risk_level_thresholds _).2.1 (by norm_num) (by norm_num),
   (c5_risk_level_thresholds _).2.2.1 (by norm_num) (by norm_num),
   (c5_risk_level_thresholds _).2.2.1 (by norm_num) (by norm_num),
   (c5_risk_level_thresholds _).2.2.2 (by norm_num)⟩

/-! Evaluation of the C1 end-to-end scenario.  The facts are established in
three helper theorems (cyber, operational, decision) shared by the claim
theorem and its counterexample. -/

set_option maxRecDepth 8000 in
/-- Cyber-assessment values of the C1 scenario. -/
theorem c1CyberFacts :
    c1Cyber.temporal_risk = 1 ∧
    c1Cyber.anomaly_rate = 85/100 ∧
    c1Cyber.avg_attack_probability = 9/10 ∧
    c1Cyber.cyber_risk_score = 915/1000 ∧
    c1Cyber.risk_level = "critical" ∧
    c1Cyber.attack_signature = "Persistent Attack" := by
  have hcount : c1Flags.count true = 85 := by decide
  have hlen : c1Flags.length = 100 := by decide
  have hmax : CyberRiskAssessmentAgent.max_consecutive c1Flags = 12 := by decide
  have hrate : npMean (c1Flags.map fun f => if f then (1 : ℚ) else 0) = 85/100 := by
    simp only [npMean, List.length_map, hlen, sum_map_boolQ, hcount]
    norm_num
  have havg : npMean c1Probs = 9/10 := by
    simp only [npMean, c1Probs, List.length_replicate, List.sum_replicate, nsmul_eq_mul]
    norm_num
  have htv : (if 1 < (List.range 100).length then
      CyberRiskAssessmentAgent.analyze_temporal_pattern c1Flags else 0) = 1 := by
    rw [if_pos (by simp)]
    simp only [CyberRiskAssessmentAgent.analyze_temporal_pattern, hlen, hmax]
    rw [if_neg (by norm_num), min_def, if_pos (by norm_num)]
  have hscore : c1Cyber.cyber_risk_score = 915/1000 := by
    simp only [c1Cyber, CyberRiskAssessmentAgent.assess_risk,
      CyberRiskAssessmentAgent.calculate_cyber_risk_score]
    rw [havg, hrate, htv, min_def, if_neg (by norm_num)]
    norm_num
  have hlevel : c1Cyber.risk_level = "critical" := by
    have h1 : c1Cyber.risk_level
        = (CyberRiskAssessmentAgent.classify_risk_level c1Cyber.cyber_risk_score).value := by
      simp only [c1Cyber, CyberRiskAssessmentAgent.assess_risk]
    rw [h1, hscore]
    simp only [CyberRiskAssessmentAgent.classify_risk_level,
      CyberRiskAssessmentAgent.prob_thresholds_low,
      CyberRiskAssessmentAgent.prob_thresholds_medium,
      CyberRiskAssessmentAgent.prob_thresholds_high]
    rw [if_neg (by norm_num), if_neg (by norm_num), if_neg (by norm_num)]
    rfl
  have hsig : c1Cyber.attack_signature = "Persistent Attack" := by
    have h1 : c1Cyber.attack_signature
        = CyberRiskAssessmentAgent.identify_attack_pattern c1Flags c1Probs := by
      simp only [c1Cyber, CyberRiskAssessmentAgent.assess_risk]
    rw [h1]
    simp only [CyberRiskAssessmentAgent.identify_attack_pattern]
    rw [hrate, if_pos (show (85 : ℚ)/100 > 8/10 from by norm_num)]
  refine ⟨?_, ?_, ?_, hscore, hlevel, hsig⟩
  · simp only [c1Cyber, CyberRiskAssessmentAgent.assess_risk]
    exact htv
  · simp only [c1Cyber, CyberRiskAssessmentAgent.assess_risk]
    exact hrate
  · simp only [c1Cyber, CyberRiskAssessmentAgent.assess_risk]
    exact havg

set_option maxRecDepth 8000 in
/-- Operational-assessment values of the C1 scenario. -/
theorem c1OpFacts :
    c1Op.impact_level = "high" ∧
    c1Op.operational_risk_score = 9/10 ∧
    c1Op.risk_level = "critical" ∧
    c1Op.fault_severity = "Critical" ∧
    c1Op.affected_systems = ["Primary Treatment", "Distribution System", "Safety Systems"] ∧
    c1Op.estimated_downtime_minutes = 240 ∧
    c1Op.mitigation_priority = 1 := by
  obtain ⟨-, hrate, -, -, hlevel, -⟩ := c1CyberFacts
  have hcount : c1Flags.count true = 85 := by decide
  have hop1 : c1Op = OperationalRiskAssessmentAgent.assess_risk (85/100) 85 "critical" := by
    simp only [c1Op, hrate, hcount, hlevel]
  have himp : OperationalRiskAssessmentAgent.assess_impact (85/100) 85 = "high" := by
    simp [OperationalRiskAssessmentAgent.assess_impact,
      show (7 : ℚ)/10 < 85/100 from by norm_num]
  have hlik : OperationalRiskAssessmentAgent.likelihood_map "critical" = "high" := by
    simp [OperationalRiskAssessmentAgent.likelihood_map, getD]
  have hcalc : OperationalRiskAssessmentAgent.calculate_operational_risk "critical" "high"
      = 9/10 := by
    simp [OperationalRiskAssessmentAgent.calculate_operational_risk, hlik,
      OperationalRiskAssessmentAgent.risk_matrix, getD]
  have hsev : OperationalRiskAssessmentAgent.assess_fault_severity (9/10) (85/100)
      = "Critical" := by
    simp [OperationalRiskAssessmentAgent.assess_fault_severity,
      show (8 : ℚ)/10 < (9/10 + 85/100) / 2 from by norm_num]
  have haff : OperationalRiskAssessmentAgent.identify_affected_systems 85 (85/100)
      = ["Primary Treatment", "Distribution System", "Safety Systems"] := by
    simp [OperationalRiskAssessmentAgent.identify_affected_systems,
      show (5 : ℚ)/10 < 85/100 from by norm_num,
      show (8 : ℚ)/10 < 85/100 from by norm_num]
  have hdown : OperationalRiskAssessmentAgent.estimate_downtime "Critical" "high" = 240 := by
    simp [OperationalRiskAssessmentAgent.estimate_downtime,
      OperationalRiskAssessmentAgent.downtime_map, getD]
  have hpri : OperationalRiskAssessmentAgent.determine_priority (9/10) "Critical" = 1 := by
    simp [OperationalRiskAssessmentAgent.determine_priority]
  have hclass : OperationalRiskAssessmentAgent.classify_risk_level (9/10) = .critical := by
    simp only [OperationalRiskAssessmentAgent.classify_risk_level]
    rw [if_neg (by norm_num), if_neg (by norm_num), if_neg (by norm_num)]
  rw [hop1]
  simp only [OperationalRiskAssessmentAgent.assess_risk]
  rw [himp, hcalc, hsev, hclass, haff, hdown, hpri]
  exact ⟨rfl, rfl, rfl, rfl, rfl, rfl, rfl⟩

/-- Decision values of the C1 scenario. -/
theorem c1DecFacts :
    c1Dec.primary_threat = "Combined Cyber-Physical Threat" ∧
    c1Dec.requires_human_approval = true ∧
    c1Dec.response_timeline = "IMMEDIATE (0-5 minutes)" ∧
    c1Dec.estimated_resolution_time = 240 := by
  obtain ⟨-, -, -, -, hlevel, -⟩ := c1CyberFacts
  obtain ⟨-, -, hoplevel, hopsev, -, hopdown, -⟩ := c1OpFacts
  refine ⟨?_, ?_, ?_, ?_⟩
  · simp only [c1Dec, DecisionMakingAgent.decideMitigation, hlevel, hoplevel]
    simp [DecisionMakingAgent.identify_primary_threat, getD]
  · simp only [c1Dec, DecisionMakingAgent.decideMitigation, hlevel, hoplevel]
    simp [DecisionMakingAgent.requires_human_approval]
  · simp only [c1Dec, DecisionMakingAgent.decideMitigation, hlevel, hoplevel, hopsev]
    simp [DecisionMakingAgent.calculate_response_timeline]
  · simp only [c1Dec, DecisionMakingAgent.decideMitigation]
    exact hopdown

/-- C1 (amended).  End-to-end scenario: for the 100-sample batch with 85
positive labels, attack probability 0.90 on every sample (so positive-mean
0.90), longest consecutive positive run 12 and timestamps supplied, the
pipeline yields temporal risk 1.0, anomaly rate 0.85, average attack
probability 0.90, cyber risk score 0.915 with level critical and signature
"Persistent Attack"; operational impact "high", likelihood normalized to
"high", operational score 0.9 with level critical, fault severity
"Critical" with combined score 0.875, affected systems Primary Treatment /
Distribution System / Safety Systems, downtime 240 minutes, priority 1;
decision: primary threat "Combined Cyber-Physical Threat", human approval
required, response timeline "IMMEDIATE (0-5 minutes)" (the literal the code
produces; the claim said "IMMEDIATE (0-5 min)"), estimated resolution 240
minutes. -/
theorem c1_end_to_end_amended :
    c1Cyber.temporal_risk = 1 ∧
    c1Cyber.anomaly_rate = 85/100 ∧
    c1Cyber.avg_attack_probability = 9/10 ∧
    c1Cyber.cyber_risk_score = 915/1000 ∧
    c1Cyber.risk_level = "critical" ∧
    c1Cyber.attack_signature = "Persistent Attack" ∧
    c1Op.impact_level = "high" ∧
    OperationalRiskAssessmentAgent.likelihood_map c1Cyber.risk_level = "high" ∧
    c1Op.operational_risk_score = 9/10 ∧
    c1Op.risk_level = "critical" ∧
    c1Op.fault_severity = "Critical" ∧
    OperationalRiskAssessmentAgent.assess_fault_severity (9/10) (85/100) = "Critical" ∧
    ((9 : ℚ)/10 + 85/100) / 2 = 875/1000 ∧
    c1Op.affected_systems = ["Primary Treatment", "Distribution System", "Safety Systems"] ∧
    c1Op.estimated_downtime_minutes = 240 ∧
    c1Op.mitigation_priority = 1 ∧
    c1Dec.primary_threat = "Combined Cyber-Physical Threat" ∧
    c1Dec.requires_human_approval = true ∧
    c1Dec.response_timeline = "IMMEDIATE (0-5 minutes)" ∧
    c1Dec.estimated_resolution_time = 240 := by
  obtain ⟨h1, h2, h3, h4, h5, h6⟩ := c1CyberFacts
  obtain ⟨o1, o2, o3, o4, o5, o6, o7⟩ := c1OpFacts
  obtain ⟨d1, d2, d3, d4⟩ := c1DecFacts
  refine ⟨h1, h2, h3, h4, h5, h6, o1, ?_, o2, o3, o4, ?_, by norm_num, o5, o6, o7,
    d1, d2, d3, d4⟩
  · rw [h5]
    simp [OperationalRiskAssessmentAgent.likelihood_map, getD]
  · simp [OperationalRiskAssessmentAgent.assess_fault_severity,
      show (8 : ℚ)/10 < (9/10 + 85/100) / 2 from by norm_num]

/-- C1 counterexample: on the scenario batch itself, the decision's
response-timeline string is "IMMEDIATE (0-5 minutes)", so it is not the
claimed "IMMEDIATE (0-5 min)". -/
theorem c1_response_timeline_counterexample :
    c1Dec.response_timeline = "IMMEDIATE (0-5 minutes)" ∧
    c1Dec.response_timeline ≠ "IMMEDIATE (0-5 min)" := by
  have h := c1DecFacts.2.2.1
  exact ⟨h, by rw [h]; decide⟩

/-! Claim C2: the rounded risk distribution. -/

/-- A one-element monadic fold is a single application. -/
theorem foldlM_single {α σ : Type} (f : σ → α → Except String σ) (s : σ) (a : α) :
    List.foldlM f s [a] = f s a := by
  cases h : f s a <;> simp [List.foldlM, h]

/-- Rounding to three decimals moves a rational by at most half a
thousandth. -/
theorem round3_err (q : ℚ) : |RiskMappingAgent.round3 q - q| ≤ 1/2000 := by
  have h1 := Int.floor_le (q * 1000 + 1/2)
  have h2 := Int.lt_floor_add_one (q * 1000 + 1/2)
  rw [RiskMappingAgent.round3, abs_le]
  constructor <;> linarith

set_option maxHeartbeats 2000000 in
set_option maxRecDepth 8000 in
/-- C2 counterexample: a real call to `map_anomalies_to_risks` (one
anomalous sample whose LIT-101 reading is flagged, contributing once to
each of three categories) returns a distribution summing to 0.999, which
differs from 1.0 by 0.001, far beyond the double-precision epsilon
2 to the power -52. -/
theorem c2_distribution_sum_counterexample :
    (((RiskMappingAgent.map_anomalies_to_risks RiskMappingAgent.initRMState
        c2Input).2.distribution.map (fun p => p.2)).sum) = 999/1000 ∧
    (1 : ℚ)/2^52 <
      |(((RiskMappingAgent.map_anomalies_to_risks RiskMappingAgent.initRMState
        c2Input).2.distribution.map (fun p => p.2)).sum) - 1| := by
  have hcol : c2Frame.col "LIT-101" = [0, 0, 0, 0, 0, 0, 7] := by
    simp [c2Frame, RiskMappingAgent.Frame.col, c2Row]
  have hvar : RiskMappingAgent.sample_var (c2Frame.col "LIT-101") = 7 := by
    rw [hcol]
    norm_num [RiskMappingAgent.sample_var, RiskMappingAgent.sample_mean, npMean]
  have hmean : RiskMappingAgent.sample_mean (c2Frame.col "LIT-101") = 1 := by
    rw [hcol]
    norm_num [RiskMappingAgent.sample_mean, npMean]
  have hflag : RiskMappingAgent.is_sensor_anomalous 7 (c2Frame.col "LIT-101") = true := by
    rw [RiskMappingAgent.is_sensor_anomalous, hvar, hmean, if_neg (by norm_num)]
    rw [decide_eq_true_eq]
    norm_num
  have hr3 : RiskMappingAgent.round3 ((3 : ℚ)⁻¹) = 333/1000 := by
    simp only [RiskMappingAgent.round3]
    rw [show ⌊(3 : ℚ)⁻¹ * 1000 + 1/2⌋ = 333 from by norm_num [Int.floor_eq_iff]]
    norm_num
  have hr0 : RiskMappingAgent.round3 (0 : ℚ) = 0 := by
    simp only [RiskMappingAgent.round3, zero_mul, zero_add]
    rw [show ⌊(1 : ℚ)/2⌋ = 0 from by norm_num [Int.floor_eq_iff]]
    norm_num
  have hrow : c2Frame.rows[6]? = some (c2Row 7) := by
    simp [c2Frame]
  have hrow7 : c2Row 7 "LIT-101" = 7 := by simp [c2Row]
  have hcols : c2Frame.cols = ["LIT-101"] := rfl
  have hsum : (((RiskMappingAgent.map_anomalies_to_risks RiskMappingAgent.initRMState
      c2Input).2.distribution.map (fun p => p.2)).sum) = 999/1000 := by
    simp only [RiskMappingAgent.map_anomalies_to_risks, c2Input]
    norm_num [RiskMappingAgent.anomalous_indices, RiskMappingAgent.anomalous_indices_from]
    rw [show RiskMappingAgent.processSample c2Frame
          { st := RiskMappingAgent.initRMState, contribs := fun _ => [],
            sensor_contribs := [] } 6
        = Except.ok ((RiskMappingAgent.SENSOR_LIST.foldl
            (RiskMappingAgent.processSensor c2Frame (c2Row 7))
            { st := RiskMappingAgent.initRMState, contribs := fun _ => [],
              sensor_contribs := [] })) from by
      simp [RiskMappingAgent.processSample, hrow]]
    simp [RiskMappingAgent.SENSOR_LIST, RiskMappingAgent.SENSOR_RISK_MAP,
      RiskMappingAgent.processSensor, hcols, hflag, hrow7, getD]
    simp [RiskMappingAgent.calculate_risk_distribution,
      RiskMappingAgent.total_contributions, RISK_CATEGORIES, hr3, hr0]
    norm_num
  refine ⟨hsum, ?_⟩
  rw [hsum, show ((999 : ℚ)/1000 - 1) = -(1/1000) from by norm_num, abs_neg,
    abs_of_nonneg (by norm_num)]
  norm_num

/-- C2 (amended).  For every contribution map (the keys of the source
dictionary are risk categories), the 8 rounded distribution values sum to
1.0 within the rounding granularity 8 times 0.0005 = 0.004 (= 1/250)
whenever the total contribution count is positive, and are all exactly 0
when it is zero.  The spec claimed a floating-point-epsilon bound, which
the per-entry rounding to three decimals does not deliver. -/
theorem c2_distribution_sum_amended (c : RiskCat → List String) :
    (0 < RiskMappingAgent.total_contributions c →
      |((RiskMappingAgent.calculate_risk_distribution c).map (fun p => p.2)).sum - 1|
        ≤ 1/250) ∧
    (RiskMappingAgent.total_contributions c = 0 →
      ∀ p ∈ RiskMappingAgent.calculate_risk_distribution c, p.2 = 0) := by
  constructor
  · intro hpos
    have hne : RiskMappingAgent.total_contributions c ≠ 0 := by omega
    have hTQ : ((RiskMappingAgent.total_contributions c : ℕ) : ℚ) ≠ 0 := by
      exact_mod_cast hne
    rw [RiskMappingAgent.calculate_risk_distribution, if_neg hne]
    simp only [RISK_CATEGORIES, List.map_cons, List.map_nil, List.sum_cons, List.sum_nil]
    have htot : (c RiskCat.waterOverflow).length + (c RiskCat.pumpDamage).length
        + (c RiskCat.waterQualityDegradation).length
        + (c RiskCat.unsafeChemicalDosing).length
        + (c RiskCat.processInterruption).length
        + (c RiskCat.unauthorizedAccess).length
        + (c RiskCat.dataTampering).length
        + (c RiskCat.denialOfService).length = RiskMappingAgent.total_contributions c := by
      simp [RiskMappingAgent.total_contributions, RISK_CATEGORIES]
      omega
    have hx : ((c RiskCat.waterOverflow).length : ℚ)
          / (RiskMappingAgent.total_contributions c : ℚ)
        + ((c RiskCat.pumpDamage).length : ℚ)
          / (RiskMappingAgent.total_contributions c : ℚ)
        + ((c RiskCat.waterQualityDegradation).length : ℚ)
          / (RiskMappingAgent.total_contributions c : ℚ)
        + ((c RiskCat.unsafeChemicalDosing).length : ℚ)
          / (RiskMappingAgent.total_contributions c : ℚ)
        + ((c RiskCat.processInterruption).length : ℚ)
          / (RiskMappingAgent.total_contributions c : ℚ)
        + ((c RiskCat.unauthorizedAccess).length : ℚ)
          / (RiskMappingAgent.total_contributions c : ℚ)
        + ((c RiskCat.dataTampering).length : ℚ)
          / (RiskMappingAgent.total_contributions c : ℚ)
        + ((c RiskCat.denialOfService).length : ℚ)
          / (RiskMappingAgent.total_contributions c : ℚ) = 1 := by
      rw [div_add_div_same, div_add_div_same, div_add_div_same, div_add_div_same,
        div_add_div_same, div_add_div_same, div_add_div_same, div_eq_iff hTQ, one_mul]
      exact_mod_cast htot
    have b1 := abs_le.mp (round3_err (((c RiskCat.waterOverflow).length : ℚ)
      / (RiskMappingAgent.total_contributions c : ℚ)))
    have b2 := abs_le.mp (round3_err (((c RiskCat.pumpDamage).length : ℚ)
      / (RiskMappingAgent.total_contributions c : ℚ)))
    have b3 := abs_le.mp (round3_err (((c RiskCat.waterQualityDegradation).length : ℚ)
      / (RiskMappingAgent.total_contributions c : ℚ)))
    have b4 := abs_le.mp (round3_err (((c RiskCat.unsafeChemicalDosing).length : ℚ)
      / (RiskMappingAgent.total_contributions c : ℚ)))
    have b5 := abs_le.mp (round3_err (((c RiskCat.processInterruption).length : ℚ)
      / (RiskMappingAgent.total_contributions c : ℚ)))
    have b6 := abs_le.mp (round3_err (((c RiskCat.unauthorizedAccess).length : ℚ)
      / (RiskMappingAgent.total_contributions c : ℚ)))
    have b7 := abs_le.mp (round3_err (((c RiskCat.dataTampering).length : ℚ)
      / (RiskMappingAgent.total_contributions c : ℚ)))
    have b8 := abs_le.mp (round3_err (((c RiskCat.denialOfService).length : ℚ)
      / (RiskMappingAgent.total_contributions c : ℚ)))
    rw [abs_le]
    constructor <;>
      linarith [b1.1, b1.2, b2.1, b2.2, b3.1, b3.2, b4.1, b4.2, b5.1, b5.2,
        b6.1, b6.2, b7.1, b7.2, b8.1, b8.2, hx]
  · intro hzero
    rw [RiskMappingAgent.calculate_risk_distribution, if_pos hzero]
    simp [RISK_CATEGORIES]

/-- Witness for C2 (amended): a single-contribution map satisfies the
1/250 bound, and the empty map yields the all-zero distribution. -/
theorem c2_distribution_sum_witness :
    |((RiskMappingAgent.calculate_risk_distribution c2WitnessContribs).map
        (fun p => p.2)).sum - 1| ≤ 1/250 ∧
    (∀ p ∈ RiskMappingAgent.calculate_risk_distribution (fun _ => []), p.2 = 0) :=
  ⟨(c2_distribution_sum_amended c2WitnessContribs).1
      (by simp [RiskMappingAgent.total_contributions, RISK_CATEGORIES, c2WitnessContribs]),
   (c2_distribution_sum_amended (fun _ => [])).2
      (by simp [RiskMappingAgent.total_contributions, RISK_CATEGORIES])⟩

/-! Claim C6: the sensor anomaly predicate against the z-score. -/

/-- The sample variance is non-negative. -/
theorem sample_var_nonneg (xs : List ℚ) : 0 ≤ RiskMappingAgent.sample_var xs := by
  rw [RiskMappingAgent.sample_var]
  split_ifs with h
  · exact le_refl 0
  · apply div_nonneg
    · apply List.sum_nonneg
      intro x hx
      simp only [List.mem_map] at hx
      obtain ⟨y, -, rfl⟩ := hx
      positivity
    · have h2 : 2 ≤ xs.length := by omega
      have h2Q : (2 : ℚ) ≤ (xs.length : ℚ) := by exact_mod_cast h2
      linarith

/-- The standard deviation vanishes exactly when the variance does. -/
theorem sample_std_eq_zero_iff (xs : List ℚ) :
    RiskMappingAgent.sample_std xs = 0 ↔ RiskMappingAgent.sample_var xs = 0 := by
  rw [RiskMappingAgent.sample_std, Real.sqrt_eq_zero']
  constructor
  · intro h
    have hv := sample_var_nonneg xs
    have hle : ((RiskMappingAgent.sample_var xs : ℚ) : ℝ) ≤ 0 := h
    have hge : (0 : ℝ) ≤ ((RiskMappingAgent.sample_var xs : ℚ) : ℝ) := by exact_mod_cast hv
    exact_mod_cast le_antisymm hle hge
  · intro h
    rw [h]
    simp

/-- C6.  For every sensor column with at least two readings (pandas yields
NaN below that and never flags), the sensor is flagged iff the standard
deviation is non-zero and the absolute standardized deviation of the value
over the whole batch strictly exceeds 2; a zero standard deviation is never
flagged (the guarded division cannot fail), and a standardized deviation of
exactly 2 is not flagged. -/
theorem c6_sensor_anomaly_boundary (v : ℚ) (xs : List ℚ) (h2 : 2 ≤ xs.length) :
    (RiskMappingAgent.sample_std xs = 0 →
      RiskMappingAgent.is_sensor_anomalous v xs = false) ∧
    (RiskMappingAgent.sample_std xs ≠ 0 →
      (RiskMappingAgent.is_sensor_anomalous v xs = true ↔
        2 < |((v : ℝ) - ((RiskMappingAgent.sample_mean xs : ℚ) : ℝ))|
          / RiskMappingAgent.sample_std xs)) ∧
    (|((v : ℝ) - ((RiskMappingAgent.sample_mean xs : ℚ) : ℝ))|
        / RiskMappingAgent.sample_std xs = 2 →
      RiskMappingAgent.is_sensor_anomalous v xs = false) := by
  have hvnn := sample_var_nonneg xs
  by_cases hv : RiskMappingAgent.sample_var xs = 0
  · have hstd0 : RiskMappingAgent.sample_std xs = 0 := (sample_std_eq_zero_iff xs).mpr hv
    refine ⟨fun _ => ?_, fun h => absurd hstd0 h, fun _ => ?_⟩
    · rw [RiskMappingAgent.is_sensor_anomalous, if_pos hv]
    · rw [RiskMappingAgent.is_sensor_anomalous, if_pos hv]
  · have hvpos : 0 < RiskMappingAgent.sample_var xs := lt_of_le_of_ne hvnn (Ne.symm hv)
    have hstdpos : 0 < RiskMappingAgent.sample_std xs := by
      rw [RiskMappingAgent.sample_std]
      exact Real.sqrt_pos.mpr (by exact_mod_cast hvpos)
    have hstdne : RiskMappingAgent.sample_std xs ≠ 0 := ne_of_gt hstdpos
    have hsq : (RiskMappingAgent.sample_std xs) ^ 2
        = ((RiskMappingAgent.sample_var xs : ℚ) : ℝ) := by
      rw [RiskMappingAgent.sample_std]
      exact Real.sq_sqrt (by exact_mod_cast hvnn)
    have hdcast : ((v : ℝ) - ((RiskMappingAgent.sample_mean xs : ℚ) : ℝ))
        = (((v - RiskMappingAgent.sample_mean xs : ℚ)) : ℝ) := by push_cast; ring
    have key : RiskMappingAgent.is_sensor_anomalous v xs = true ↔
        2 < |((v : ℝ) - ((RiskMappingAgent.sample_mean xs : ℚ) : ℝ))|
          / RiskMappingAgent.sample_std xs := by
      rw [RiskMappingAgent.is_sensor_anomalous, if_neg hv, decide_eq_true_eq,
        lt_div_iff₀ hstdpos]
      constructor
      · intro hgt
        have hR : 4 * ((RiskMappingAgent.sample_var xs : ℚ) : ℝ)
            < ((v : ℝ) - ((RiskMappingAgent.sample_mean xs : ℚ) : ℝ)) ^ 2 := by
          rw [hdcast]
          exact_mod_cast hgt
        by_contra hcon
        push_neg at hcon
        have habs := abs_nonneg ((v : ℝ) - ((RiskMappingAgent.sample_mean xs : ℚ) : ℝ))
        have hsqabs := sq_abs ((v : ℝ) - ((RiskMappingAgent.sample_mean xs : ℚ) : ℝ))
        nlinarith [mul_self_le_mul_self habs hcon]
      · intro hlt
        have habs := abs_nonneg ((v : ℝ) - ((RiskMappingAgent.sample_mean xs : ℚ) : ℝ))
        have hsqabs := sq_abs ((v : ℝ) - ((RiskMappingAgent.sample_mean xs : ℚ) : ℝ))
        have hR : 4 * ((RiskMappingAgent.sample_var xs : ℚ) : ℝ)
            < ((v : ℝ) - ((RiskMappingAgent.sample_mean xs : ℚ) : ℝ)) ^ 2 := by
          nlinarith [mul_self_lt_mul_self (by positivity : (0 : ℝ) ≤ 2 * RiskMappingAgent.sample_std xs) hlt]
        rw [hdcast] at hR
        exact_mod_cast hR
    refine ⟨fun h0 => absurd h0 hstdne, fun _ => key, fun hz => ?_⟩
    cases hb : RiskMappingAgent.is_sensor_anomalous v xs
    · rfl
    · exfalso
      have h2lt := key.mp hb
      rw [hz] at h2lt
      exact lt_irrefl _ h2lt

/-- Witness for C6: over the column [0,1,2] (mean 1, sample standard
deviation 1), the reading 3 has standardized deviation exactly 2 and is
not flagged, while 3.0001 (z = 2.0001) is flagged; the zero-variance
column [5,5] never flags. -/
theorem c6_sensor_anomaly_boundary_witness :
    RiskMappingAgent.is_sensor_anomalous 3 [0, 1, 2] = false ∧
    RiskMappingAgent.is_sensor_anomalous (30001/10000) [0, 1, 2] = true ∧
    RiskMappingAgent.is_sensor_anomalous 3 [5, 5] = false := by
  have hm : RiskMappingAgent.sample_mean [(0 : ℚ), 1, 2] = 1 := by
    norm_num [RiskMappingAgent.sample_mean, npMean]
  have hv : RiskMappingAgent.sample_var [(0 : ℚ), 1, 2] = 1 := by
    norm_num [RiskMappingAgent.sample_var, RiskMappingAgent.sample_mean, npMean]
  have hstd : RiskMappingAgent.sample_std [(0 : ℚ), 1, 2] = 1 := by
    rw [RiskMappingAgent.sample_std, hv]
    norm_num
  have hv5 : RiskMappingAgent.sample_var [(5 : ℚ), 5] = 0 := by
    norm_num [RiskMappingAgent.sample_var, RiskMappingAgent.sample_mean, npMean]
  have hstd5 : RiskMappingAgent.sample_std [(5 : ℚ), 5] = 0 := by
    rw [RiskMappingAgent.sample_std, hv5]
    norm_num
  refine ⟨?_, ?_, ?_⟩
  · refine (c6_sensor_anomaly_boundary 3 [0, 1, 2] (by norm_num)).2.2 ?_
    rw [hm, hstd]
    norm_num
  · refine ((c6_sensor_anomaly_boundary (30001/10000) [0, 1, 2] (by norm_num)).2.1
      (by rw [hstd]; norm_num)).mpr ?_
    rw [hm, hstd]
    push_cast
    rw [abs_of_nonneg (by norm_num)]
    norm_num
  · exact (c6_sensor_anomaly_boundary 3 [5, 5] (by norm_num)).1 hstd5

/-! Claim C8: empty and all-negative batches. -/

/-- No prediction equal to 1 means no anomalous index, from any start
offset. -/
theorem anomalous_indices_from_nil (l : List ℕ) (h : ∀ p ∈ l, p ≠ 1) :
    ∀ k, RiskMappingAgent.anomalous_indices_from k l = [] := by
  induction l with
  | nil => intro k; rfl
  | cons p ps ih =>
    intro k
    simp only [RiskMappingAgent.anomalous_indices_from]
    rw [if_neg (h p (List.mem_cons_self p ps))]
    exact ih (fun q hq => h q (List.mem_cons_of_mem p hq)) (k + 1)

/-- C8.  A call whose prediction list is empty or contains no positive
label returns the defined empty result: all-zero distribution over the 8
categories, majority category "None" with severity "Low", no sensor
contributions and zero anomalies analyzed, without raising. -/
theorem c8_empty_batch (st : RiskMappingAgent.RMState) (inp : RiskMappingAgent.RMInput)
    (h : inp.predictions = [] ∨ ∀ p ∈ inp.predictions, p ≠ 1) :
    (RiskMappingAgent.map_anomalies_to_risks st inp).2
      = RiskMappingAgent.empty_risk_mapping ∧
    (RiskMappingAgent.map_anomalies_to_risks st inp).2.distribution
      = RISK_CATEGORIES.map (fun r => (r, 0)) ∧
    (RiskMappingAgent.map_anomalies_to_risks st inp).2.majority_risk.category = "None" ∧
    (RiskMappingAgent.map_anomalies_to_risks st inp).2.majority_risk.severity = "Low" ∧
    (RiskMappingAgent.map_anomalies_to_risks st inp).2.sensor_contributions = [] ∧
    (RiskMappingAgent.map_anomalies_to_risks st inp).2.total_anomalies_analyzed = 0 := by
  have hmain : (RiskMappingAgent.map_anomalies_to_risks st inp).2
      = RiskMappingAgent.empty_risk_mapping := by
    cases hsd : inp.sensor_data with
    | none => simp [RiskMappingAgent.map_anomalies_to_risks, hsd]
    | some f =>
      rcases h with h | h
      · simp [RiskMappingAgent.map_anomalies_to_risks, hsd, h]
      · by_cases hlen : inp.predictions.length = 0
        · simp [RiskMappingAgent.map_anomalies_to_risks, hsd, hlen]
        · have hanom : RiskMappingAgent.anomalous_indices inp.predictions = [] := by
            rw [RiskMappingAgent.anomalous_indices]
            exact anomalous_indices_from_nil _ h 0
          simp [RiskMappingAgent.map_anomalies_to_risks, hsd, hlen, hanom]
  refine ⟨hmain, ?_, ?_, ?_, ?_, ?_⟩ <;> rw [hmain] <;> rfl

/-- Witness for C8: an all-negative three-sample batch over the concrete
frame yields the empty mapping result. -/
theorem c8_empty_batch_witness :
    (RiskMappingAgent.map_anomalies_to_risks RiskMappingAgent.initRMState
      { predictions := [0, 0, 0], sensor_data := some c2Frame }).2
      = RiskMappingAgent.empty_risk_mapping ∧
    (RiskMappingAgent.map_anomalies_to_risks RiskMappingAgent.initRMState
      { predictions := [], sensor_data := some c2Frame }).2
      = RiskMappingAgent.empty_risk_mapping :=
  ⟨(c8_empty_batch RiskMappingAgent.initRMState _ (Or.inr (by decide))).1,
   (c8_empty_batch RiskMappingAgent.initRMState _ (Or.inl rfl)).1⟩

/-! Claim C9: deduplication of the recommended action list. -/

/-- Membership is preserved by first-occurrence deduplication. -/
theorem mem_dedupFirst {α : Type} [DecidableEq α] (a : α) (l : List α) :
    a ∈ dedupFirst l ↔ a ∈ l := by
  induction l using dedupFirst.induct with
  | case1 => simp [dedupFirst]
  | case2 x xs ih =>
    rw [dedupFirst]
    simp only [List.mem_cons, ih, List.mem_filter, decide_eq_true_eq]
    constructor
    · rintro (rfl | ⟨h, -⟩)
      · exact Or.inl rfl
      · exact Or.inr h
    · rintro (rfl | h)
      · exact Or.inl rfl
      · by_cases hax : a = x
        · exact Or.inl hax
        · exact Or.inr ⟨h, hax⟩

/-- First-occurrence deduplication produces a duplicate-free list. -/
theorem nodup_dedupFirst {α : Type} [DecidableEq α] (l : List α) : (dedupFirst l).Nodup := by
  induction l using dedupFirst.induct with
  | case1 => simp [dedupFirst]
  | case2 x xs ih =>
    rw [dedupFirst]
    refine List.nodup_cons.mpr ⟨?_, ih⟩
    rw [mem_dedupFirst]
    simp [List.mem_filter]

/-- The deduplicated list is a sublist of the original, so relative order
is preserved. -/
theorem dedupFirst_sublist {α : Type} [DecidableEq α] (l : List α) :
    List.Sublist (dedupFirst l) l := by
  induction l using dedupFirst.induct with
  | case1 => simp [dedupFirst]
  | case2 x xs ih =>
    rw [dedupFirst]
    exact List.Sublist.cons₂ x (ih.trans (List.filter_sublist xs))

/-- Filtering out a third element preserves the relative order of first
occurrences. -/
theorem indexOf_filter_ne {α : Type} [DecidableEq α] (x a b : α) (hax : a ≠ x) (hbx : b ≠ x)
    (l : List α) : a ∈ l → b ∈ l →
      (((l.filter (fun y => decide (y ≠ x))).indexOf a
          < (l.filter (fun y => decide (y ≠ x))).indexOf b)
        ↔ l.indexOf a < l.indexOf b) := by
  induction l with
  | nil => simp
  | cons y ys ih =>
    intro ha hb
    by_cases hyx : y = x
    · subst hyx
      rw [List.filter_cons_of_neg (by simp)]
      have ha' : a ∈ ys := by
        rcases List.mem_cons.mp ha with rfl | h
        · exact absurd rfl hax
        · exact h
      have hb' : b ∈ ys := by
        rcases List.mem_cons.mp hb with rfl | h
        · exact absurd rfl hbx
        · exact h
      rw [List.indexOf_cons_ne ys (Ne.symm hax), List.indexOf_cons_ne ys (Ne.symm hbx)]
      rw [Nat.succ_lt_succ_iff]
      exact ih ha' hb'
    · rw [List.filter_cons_of_pos (by simp [hyx])]
      by_cases hay : a = y
      · subst hay
        rw [List.indexOf_cons_self, List.indexOf_cons_self]
        by_cases hby : b = a
        · subst hby
          simp
        · rw [List.indexOf_cons_ne _ (fun h => hby h.symm),
            List.indexOf_cons_ne _ (fun h => hby h.symm)]
          simp
      · by_cases hby : b = y
        · subst hby
          rw [List.indexOf_cons_self, List.indexOf_cons_self,
            List.indexOf_cons_ne _ (fun h => hay h.symm),
            List.indexOf_cons_ne _ (fun h => hay h.symm)]
          simp
        · have ha' : a ∈ ys := by
            rcases List.mem_cons.mp ha with rfl | h
            · exact absurd rfl hay
            · exact h
          have hb' : b ∈ ys := by
            rcases List.mem_cons.mp hb with rfl | h
            · exact absurd rfl hby
            · exact h
          rw [List.indexOf_cons_ne _ (fun h => hay h.symm),
            List.indexOf_cons_ne _ (fun h => hby h.symm),
            List.indexOf_cons_ne _ (fun h => hay h.symm),
            List.indexOf_cons_ne _ (fun h => hby h.symm)]
          rw [Nat.succ_lt_succ_iff, Nat.succ_lt_succ_iff]
          exact ih ha' hb'

/-- First-occurrence deduplication preserves the relative order of first
occurrences. -/
theorem indexOf_dedupFirst_lt {α : Type} [DecidableEq α] (l : List α) :
    ∀ a b, a ∈ l → b ∈ l →
      (((dedupFirst l).indexOf a < (dedupFirst l).indexOf b)
        ↔ l.indexOf a < l.indexOf b) := by
  induction l using dedupFirst.induct with
  | case1 => simp
  | case2 x xs ih =>
    intro a b ha hb
    rw [dedupFirst]
    by_cases hax : a = x
    · subst hax
      rw [List.indexOf_cons_self, List.indexOf_cons_self]
      by_cases hbx : b = a
      · subst hbx
        simp
      · rw [List.indexOf_cons_ne _ (fun h => hbx h.symm),
          List.indexOf_cons_ne _ (fun h => hbx h.symm)]
        simp
    · by_cases hbx : b = x
      · subst hbx
        rw [List.indexOf_cons_self, List.indexOf_cons_self,
          List.indexOf_cons_ne _ (fun h => hax h.symm),
          List.indexOf_cons_ne _ (fun h => hax h.symm)]
        simp
      · have ha' : a ∈ xs := by
          rcases List.mem_cons.mp ha with rfl | h
          · exact absurd rfl hax
          · exact h
        have hb' : b ∈ xs := by
          rcases List.mem_cons.mp hb with rfl | h
          · exact absurd rfl hbx
          · exact h
        have haf : a ∈ xs.filter (fun y => decide (y ≠ x)) :=
          List.mem_filter.mpr ⟨ha', by simp [hax]⟩
        have hbf : b ∈ xs.filter (fun y => decide (y ≠ x)) :=
          List.mem_filter.mpr ⟨hb', by simp [hbx]⟩
        rw [List.indexOf_cons_ne _ (fun h => hax h.symm),
          List.indexOf_cons_ne _ (fun h => hbx h.symm),
          List.indexOf_cons_ne _ (fun h => hax h.symm),
          List.indexOf_cons_ne _ (fun h => hbx h.symm)]
        rw [Nat.succ_lt_succ_iff, Nat.succ_lt_succ_iff]
        rw [ih a b haf hbf]
        exact indexOf_filter_ne x a b hax hbx xs ha' hb'

/-- C9.  For every pair of risk levels and fault severity, the recommended
action list of `_select_actions` has no duplicate entries, is a sublist of
the unioned cyber-tier and operational-tier source list, covers exactly its
members, and orders any two source actions by their first occurrences in
the source list. -/
theorem c9_actions_nodup_first_seen (cyber_risk operational_risk fault_severity : String) :
    (DecisionMakingAgent.select_actions cyber_risk operational_risk fault_severity).Nodup ∧
    List.Sublist (DecisionMakingAgent.select_actions cyber_risk operational_risk fault_severity)
      (DecisionMakingAgent.rawActions cyber_risk operational_risk fault_severity) ∧
    (∀ a, a ∈ DecisionMakingAgent.select_actions cyber_risk operational_risk fault_severity ↔
      a ∈ DecisionMakingAgent.rawActions cyber_risk operational_risk fault_severity) ∧
    (∀ a b, a ∈ DecisionMakingAgent.rawActions cyber_risk operational_risk fault_severity →
      b ∈ DecisionMakingAgent.rawActions cyber_risk operational_risk fault_severity →
      (((DecisionMakingAgent.select_actions cyber_risk operational_risk fault_severity).indexOf a
          < (DecisionMakingAgent.select_actions cyber_risk operational_risk
              fault_severity).indexOf b) ↔
        (DecisionMakingAgent.rawActions cyber_risk operational_risk fault_severity).indexOf a
          < (DecisionMakingAgent.rawActions cyber_risk operational_risk
              fault_severity).indexOf b)) :=
  ⟨nodup_dedupFirst _, dedupFirst_sublist _, fun a => mem_dedupFirst a _,
    fun a b ha hb => indexOf_dedupFirst_lt _ a b ha hb⟩

/-- Witness for C9 at critical/critical/Critical: the action list is
duplicate-free and two concrete source actions keep their first-seen
order. -/
theorem c9_actions_nodup_first_seen_witness :
    (DecisionMakingAgent.select_actions "critical" "critical" "Critical").Nodup ∧
    (((DecisionMakingAgent.select_actions "critical" "critical" "Critical").indexOf
        "Isolate affected network segments"
      < (DecisionMakingAgent.select_actions "critical" "critical" "Critical").indexOf
        "Emergency shutdown of affected stages") ↔
      ((DecisionMakingAgent.rawActions "critical" "critical" "Critical").indexOf
        "Isolate affected network segments"
      < (DecisionMakingAgent.rawActions "critical" "critical" "Critical").indexOf
        "Emergency shutdown of affected stages")) :=
  ⟨(c9_actions_nodup_first_seen "critical" "critical" "Critical").1,
   (c9_actions_nodup_first_seen "critical" "critical" "Critical").2.2.2 _ _
    (by decide) (by decide)⟩

/-! Claims C3, C7 and C10: the coordinator state machine. -/

namespace CoordinationAgent

/-- Binding a raised `Except` propagates the error. -/
theorem except_error_bind {α β : Type} (e : String) (f : α → Except String β) :
    (Except.error e : Except String α) >>= f = Except.error e := rfl

/-- Binding a successful `Except` applies the continuation. -/
theorem except_ok_bind {α β : Type} (a : α) (f : α → Except String β) :
    (Except.ok a : Except String α) >>= f = f a := rfl

/-- The mandatory chain only reads the collaborator slots, so the log and
state updates performed at the top of `process_data` do not affect it. -/
theorem mandatoryChain_state_irrel (c : Coordinator) (raw : RiskMappingAgent.Frame)
    (lv msg : String) (s : SysState) :
    mandatoryChain { logEvent c lv msg with system_state := s } raw
      = mandatoryChain c raw := rfl

/-- With any mandatory collaborator unregistered, the chain raises. -/
theorem mandatoryChain_unregistered (c : Coordinator) (raw : RiskMappingAgent.Frame)
    (h : c.perception_agent = none ∨ c.fault_detection_agent = none ∨
      c.cyber_risk_agent = none ∨ c.operational_risk_agent = none ∨
      c.decision_agent = none) :
    ∃ e, mandatoryChain c raw = .error e := by
  unfold mandatoryChain
  cases hp : c.perception_agent with
  | none =>
    exact ⟨"AttributeError: NoneType has no such attribute",
      by simp [callOpt, hp, except_error_bind]⟩
  | some p =>
    cases hpr : p raw with
    | error e => exact ⟨e, by simp [callOpt, hp, hpr, except_error_bind, except_ok_bind]⟩
    | ok pt =>
      cases hf : c.fault_detection_agent with
      | none =>
        exact ⟨"AttributeError: NoneType has no such attribute",
          by simp [callOpt, hp, hpr, hf, except_error_bind, except_ok_bind]⟩
      | some fd =>
        cases hfr : fd pt.1 with
        | error e =>
          exact ⟨e, by simp [callOpt, hp, hpr, hf, hfr, except_error_bind, except_ok_bind]⟩
        | ok det =>
          cases hc : c.cyber_risk_agent with
          | none =>
            exact ⟨"AttributeError: NoneType has no such attribute",
              by simp [callOpt, callOpt2, hp, hpr, hf, hfr, hc, except_error_bind,
                except_ok_bind]⟩
          | some cy =>
            cases hcr : cy det pt.2 with
            | error e =>
              exact ⟨e, by simp [callOpt, callOpt2, hp, hpr, hf, hfr, hc, hcr,
                except_error_bind, except_ok_bind]⟩
            | ok cya =>
              cases ho : c.operational_risk_agent with
              | none =>
                exact ⟨"AttributeError: NoneType has no such attribute",
                  by simp [callOpt, callOpt2, hp, hpr, hf, hfr, hc, hcr, ho,
                    except_error_bind, except_ok_bind]⟩
              | some oa =>
                cases hor : oa det cya with
                | error e =>
                  exact ⟨e, by simp [callOpt, callOpt2, hp, hpr, hf, hfr, hc, hcr, ho, hor,
                    except_error_bind, except_ok_bind]⟩
                | ok opa =>
                  cases hd : c.decision_agent with
                  | none =>
                    exact ⟨"AttributeError: NoneType has no such attribute", by
                      simp [callOpt, callOpt2, hp, hpr, hf, hfr, hc, hcr, ho, hor, hd,
                        except_error_bind, except_ok_bind]⟩
                  | some da =>
                    simp_all

/-- When the mandatory chain succeeds and the risk-mapping branch raises,
`process_data` logs a warning, omits the mapping entry, and completes
successfully.  Shared by the theorems for claims C7 and C10. -/
theorem process_data_mapping_error (c : Coordinator) (raw : RiskMappingAgent.Frame)
    (det : Dict) (cy : CyberRiskAssessmentAgent.CyberAssessment)
    (opa : OperationalRiskAssessmentAgent.OperationalAssessment)
    (dec : DecisionMakingAgent.MitigationDecision)
    (mapper : Dict → Except String RiskMappingAgent.RiskMappingResult) (e : String)
    (hchain : mandatoryChain c raw = .ok (det, cy, opa, dec))
    (hm : c.risk_mapping_agent = some mapper)
    (hfail : buildRMInput det raw >>= mapper = .error e) :
    (process_data c raw).2.status = "SUCCESS" ∧
    (process_data c raw).2.riskMappingField = none ∧
    (process_data c raw).1.system_state = .COMPLETED ∧
    ("WARNING", "Risk mapping error: " ++ e) ∈ (process_data c raw).1.execution_log := by
  simp only [process_data]
  rw [mandatoryChain_state_irrel, hchain]
  simp only [logEvent, hm]
  rw [hfail]
  simp [ProcResult.status, ProcResult.riskMappingField]

/-- Evaluating the mapper-input dictionary over the real `detect` output
raises KeyError: `detect` publishes `attack_probability`, never
`attack_probabilities`. -/
theorem buildRMInput_detect (y_pred : List ℕ) (proba : List (ℚ × ℚ))
    (raw : RiskMappingAgent.Frame) :
    buildRMInput (FaultDetectionAgent.detect y_pred proba) raw
      = .error "KeyError: attack_probabilities" := by
  simp [buildRMInput, FaultDetectionAgent.detect, getItem, except_ok_bind, except_error_bind]

end CoordinationAgent

/-- C3 counterexample: on a coordinator whose collaborators were never
registered, a `process` call is not rejected in state READY: the state
before the call is INITIALIZED, and the call drives the machine through
PROCESSING into ERROR while returning a structured error result. -/
theorem c3_unregistered_counterexample :
    CoordinationAgent.initCoordinator.system_state = CoordinationAgent.SysState.INITIALIZED ∧
    (CoordinationAgent.process_data CoordinationAgent.initCoordinator
        emptyFrame).1.system_state = CoordinationAgent.SysState.ERROR ∧
    (CoordinationAgent.process_data CoordinationAgent.initCoordinator
        emptyFrame).1.system_state ≠ CoordinationAgent.SysState.READY ∧
    (CoordinationAgent.process_data CoordinationAgent.initCoordinator
        emptyFrame).2.status = "ERROR" := by
  refine ⟨rfl, ?_, ?_, ?_⟩ <;>
    simp [CoordinationAgent.process_data, CoordinationAgent.initCoordinator,
      CoordinationAgent.mandatoryChain, CoordinationAgent.callOpt,
      CoordinationAgent.logEvent, CoordinationAgent.except_error_bind,
      CoordinationAgent.ProcResult.status]

/-- C3 (amended).  A `process` call made before the five mandatory
collaborators are registered is not rejected by a guard: the AttributeError
raised by the missing collaborator is caught by the outer handler, the
call returns a structured result with status ERROR, and the coordinator
ends in state ERROR (in particular not READY). -/
theorem c3_unregistered_amended (c : CoordinationAgent.Coordinator)
    (raw : RiskMappingAgent.Frame)
    (h : c.perception_agent = none ∨ c.fault_detection_agent = none ∨
      c.cyber_risk_agent = none ∨ c.operational_risk_agent = none ∨
      c.decision_agent = none) :
    (CoordinationAgent.process_data c raw).2.status = "ERROR" ∧
    (CoordinationAgent.process_data c raw).1.system_state = CoordinationAgent.SysState.ERROR ∧
    (CoordinationAgent.process_data c raw).1.system_state
      ≠ CoordinationAgent.SysState.READY := by
  obtain ⟨e, he⟩ := CoordinationAgent.mandatoryChain_unregistered
    { CoordinationAgent.logEvent c "INFO" "Starting data processing pipeline" with
      system_state := .PROCESSING } raw h
  simp only [CoordinationAgent.process_data]
  rw [he]
  simp [CoordinationAgent.ProcResult.status, CoordinationAgent.logEvent]

/-- Witness for C3 (amended): the freshly initialized coordinator. -/
theorem c3_unregistered_amended_witness :
    (CoordinationAgent.process_data CoordinationAgent.initCoordinator
        emptyFrame).2.status = "ERROR" ∧
    (CoordinationAgent.process_data CoordinationAgent.initCoordinator
        emptyFrame).1.system_state = CoordinationAgent.SysState.ERROR ∧
    (CoordinationAgent.process_data CoordinationAgent.initCoordinator
        emptyFrame).1.system_state ≠ CoordinationAgent.SysState.READY :=
  c3_unregistered_amended CoordinationAgent.initCoordinator emptyFrame (Or.inl rfl)

/-- C7.  Whenever the mandatory chain succeeds and the registered
risk-mapping step raises, the exception is caught locally, a warning is
logged, the pipeline completes (state COMPLETED), and the returned result
has status SUCCESS and simply omits the risk-mapping entry: the failure
never propagates to the caller. -/
theorem c7_mapping_failure_swallowed (c : CoordinationAgent.Coordinator)
    (raw : RiskMappingAgent.Frame) (det : Dict)
    (cy : CyberRiskAssessmentAgent.CyberAssessment)
    (opa : OperationalRiskAssessmentAgent.OperationalAssessment)
    (dec : DecisionMakingAgent.MitigationDecision)
    (mapper : Dict → Except String RiskMappingAgent.RiskMappingResult) (e : String)
    (hchain : CoordinationAgent.mandatoryChain c raw = .ok (det, cy, opa, dec))
    (hm : c.risk_mapping_agent = some mapper)
    (hfail : CoordinationAgent.buildRMInput det raw >>= mapper = .error e) :
    (CoordinationAgent.process_data c raw).2.status = "SUCCESS" ∧
    (CoordinationAgent.process_data c raw).2.riskMappingField = none ∧
    (CoordinationAgent.process_data c raw).1.system_state
      = CoordinationAgent.SysState.COMPLETED ∧
    ("WARNING", "Risk mapping error: " ++ e)
      ∈ (CoordinationAgent.process_data c raw).1.execution_log :=
  CoordinationAgent.process_data_mapping_error c raw det cy opa dec mapper e hchain hm hfail

/-- Witness for C7: a fully registered coordinator whose mapper raises
"mapper exploded"; the pipeline succeeds, omits the mapping entry and logs
the warning. -/
theorem c7_mapping_failure_swallowed_witness :
    (CoordinationAgent.process_data c7Coordinator emptyFrame).2.status = "SUCCESS" ∧
    (CoordinationAgent.process_data c7Coordinator emptyFrame).2.riskMappingField = none ∧
    (CoordinationAgent.process_data c7Coordinator emptyFrame).1.system_state
      = CoordinationAgent.SysState.COMPLETED ∧
    ("WARNING", "Risk mapping error: " ++ "mapper exploded")
      ∈ (CoordinationAgent.process_data c7Coordinator emptyFrame).1.execution_log :=
  c7_mapping_failure_swallowed c7Coordinator emptyFrame c7Det wCyber wOp wDec _
    "mapper exploded" rfl rfl
    (by simp [CoordinationAgent.buildRMInput, getItem, c7Det,
      CoordinationAgent.except_ok_bind, c7Coordinator])

/-- C10.  The mapper-input dictionary reads
`detection_results["attack_probabilities"]`, a key `detect` never produces
(its key is `attack_probability`); so whenever a mapper is registered and
the mandatory chain succeeds on real detect output, the branch raises
KeyError before the mapper runs, the error is downgraded to a logged
warning, and the success result never carries a risk-mapping entry. -/
theorem c10_attack_probabilities_keyerror (c : CoordinationAgent.Coordinator)
    (raw : RiskMappingAgent.Frame) (y_pred : List ℕ) (proba : List (ℚ × ℚ))
    (cy : CyberRiskAssessmentAgent.CyberAssessment)
    (opa : OperationalRiskAssessmentAgent.OperationalAssessment)
    (dec : DecisionMakingAgent.MitigationDecision)
    (mapper : Dict → Except String RiskMappingAgent.RiskMappingResult)
    (hchain : CoordinationAgent.mandatoryChain c raw
      = .ok (FaultDetectionAgent.detect y_pred proba, cy, opa, dec))
    (hm : c.risk_mapping_agent = some mapper) :
    CoordinationAgent.buildRMInput (FaultDetectionAgent.detect y_pred proba) raw
      = .error "KeyError: attack_probabilities" ∧
    (CoordinationAgent.process_data c raw).2.status = "SUCCESS" ∧
    (CoordinationAgent.process_data c raw).2.riskMappingField = none ∧
    ("WARNING", "Risk mapping error: " ++ "KeyError: attack_probabilities")
      ∈ (CoordinationAgent.process_data c raw).1.execution_log := by
  have hkey := CoordinationAgent.buildRMInput_detect y_pred proba raw
  have hfail : CoordinationAgent.buildRMInput (FaultDetectionAgent.detect y_pred proba) raw
      >>= mapper = .error "KeyError: attack_probabilities" := by
    rw [hkey]
    rfl
  have h := CoordinationAgent.process_data_mapping_error c raw
    (FaultDetectionAgent.detect y_pred proba) cy opa dec mapper
    "KeyError: attack_probabilities" hchain hm hfail
  exact ⟨hkey, h.1, h.2.1, h.2.2.2⟩

/-- Witness for C10: a fully registered coordinator whose detect stage
returns the real detection dictionary and whose mapper would succeed; the
KeyError still fires and the result carries no risk-mapping entry. -/
theorem c10_attack_probabilities_keyerror_witness :
    CoordinationAgent.buildRMInput (FaultDetectionAgent.detect [0] [(1/2, 1/2)]) emptyFrame
      = .error "KeyError: attack_probabilities" ∧
    (CoordinationAgent.process_data c10Coordinator emptyFrame).2.status = "SUCCESS" ∧
    (CoordinationAgent.process_data c10Coordinator emptyFrame).2.riskMappingField = none ∧
    ("WARNING", "Risk mapping error: " ++ "KeyError: attack_probabilities")
      ∈ (CoordinationAgent.process_data c10Coordinator emptyFrame).1.execution_log :=
  c10_attack_probabilities_keyerror c10Coordinator emptyFrame [0] [(1/2, 1/2)]
    wCyber wOp wDec _ rfl rfl

end ICS
